import Mathlib

/-!
Shallow embedding of the GPU rendering core of this repository
(gfx/webrender/src/renderer.rs, gfx/webrender/src/device.rs,
gfx/webrender/src/internal_types.rs), together with theorems settling the
behavioural claims about the GPU cache texture, the vertex data textures,
the frame executor and the device state cache.

Conventions of the embedding:
* machine integers are `Nat`s (all the quantities involved are
  non-negative sizes and indices) or `Int`s where the source uses `i32`;
* `f32` payloads that the code only moves around and never computes with
  (GPU cache blocks, blend colors, render-task data cells) are carried as
  `Int`s, which preserves the copy semantics exactly;
* fallible operations (Rust slice indexing that can panic) return
  `Option`, with `none` standing for a panic;
* GL side effects are reified as lists of events, so that theorems can
  speak about which underlying calls a code path issues and in what order.
-/

set_option maxRecDepth 100000

namespace Gecko

/-- renderer.rs line 59: `pub const MAX_VERTEX_TEXTURE_WIDTH: usize = 1024;` -/
def MAX_VERTEX_TEXTURE_WIDTH : Nat := 1024

/-- gpu_cache.rs `GpuBlockData`: one 4 × f32 block of GPU cache data.
    The four components are carried as `Int`s: the renderer only ever copies
    blocks, so the payload representation is irrelevant to the semantics.
    `mem::size_of::<GpuBlockData>()` is 16 bytes. -/
structure GpuBlockData where
  c0 : Int
  c1 : Int
  c2 : Int
  c3 : Int
deriving DecidableEq

/-- gpu_cache.rs `GpuBlockData::empty()`: the all-zero block. -/
def GpuBlockData.empty : GpuBlockData := ⟨0, 0, 0, 0⟩

/-- Byte size of one `GpuBlockData` (4 × f32). -/
def GPU_BLOCK_DATA_SIZE : Nat := 16

/-- gpu_cache.rs `GpuCacheAddress { u : u16, v : u16 }`. -/
structure GpuCacheAddress where
  u : Nat
  v : Nat
deriving DecidableEq

/-- gpu_cache.rs `GpuCacheUpdate`: the only variant is
    `Copy { block_index, block_count, address }`. -/
inductive GpuCacheUpdate where
  | Copy (block_index : Nat) (block_count : Nat) (address : GpuCacheAddress)
deriving DecidableEq

/-- gpu_cache.rs `GpuCacheUpdateList { height, updates, blocks }`. -/
structure GpuCacheUpdateList where
  height : Nat
  updates : List GpuCacheUpdate
  blocks : List GpuBlockData

/-- renderer.rs line 253: per-row dirty bit of the GPU cache texture. -/
structure CacheRow where
  is_dirty : Bool
deriving DecidableEq

/-- renderer.rs `CacheRow::new()`. -/
def CacheRow.new : CacheRow := ⟨false⟩

/-- renderer.rs line 266 `CacheTexture`: the device-side GPU cache with its
    CPU shadow (`cpu_blocks`), per-row dirty bits (`rows`), the GL texture
    handle and the owned PBO handle. -/
structure CacheTexture where
  texture_id : Nat
  pbo_id : Nat
  rows : List CacheRow
  cpu_blocks : List GpuBlockData
deriving DecidableEq

/-- The `while self.rows.len() <= row` loop of `CacheTexture::apply_patch`
    (renderer.rs lines 295-300): each iteration pushes one clean `CacheRow`
    and `MAX_VERTEX_TEXTURE_WIDTH` empty blocks.  The iteration count
    (`row + 1 - rows.length`, clamped at 0) is passed explicitly so the
    function is structurally recursive. -/
def pushEmptyRows : Nat → List CacheRow × List GpuBlockData → List CacheRow × List GpuBlockData
  | 0, s => s
  | n + 1, (rows, blocks) =>
      pushEmptyRows n
        (rows ++ [CacheRow.new],
         blocks ++ List.replicate MAX_VERTEX_TEXTURE_WIDTH GpuBlockData.empty)

/-- The copy loop of `CacheTexture::apply_patch` (renderer.rs lines 308-310):
    `for i in 0..block_count { data[i] = blocks[block_index + i] }`, writing
    into the shadow starting at `off` and reading from `src` starting at
    `si`.  The caller has checked both ranges, so `getD` never hits its
    default. -/
def copyBlocks (src : List GpuBlockData) :
    List GpuBlockData → Nat → Nat → Nat → List GpuBlockData
  | dst, _, _, 0 => dst
  | dst, off, si, n + 1 =>
      copyBlocks src (dst.set off (src.getD si GpuBlockData.empty)) (off + 1) (si + 1) n

/-- renderer.rs lines 286-313 `CacheTexture::apply_patch`.  Grows the shadow
    to cover row `v`, marks row `v` dirty, and copies `block_count` blocks
    from `blocks[block_index..]` to shadow offset `v*W + u`.  The source
    takes the slice `self.cpu_blocks[block_offset..block_offset+block_count]`
    and indexes `blocks[block_index + i]`; either going out of range panics,
    modelled by `none`. -/
def CacheTexture.apply_patch (self : CacheTexture) (update : GpuCacheUpdate)
    (blocks : List GpuBlockData) : Option CacheTexture :=
  match update with
  | GpuCacheUpdate.Copy block_index block_count address =>
      let row := address.v
      let grown := pushEmptyRows (row + 1 - self.rows.length) (self.rows, self.cpu_blocks)
      let rows := grown.1.set row { is_dirty := true }
      let cpu_blocks := grown.2
      let block_offset := row * MAX_VERTEX_TEXTURE_WIDTH + address.u
      if block_offset + block_count ≤ cpu_blocks.length ∧
         block_index + block_count ≤ blocks.length then
        some { self with
               rows := rows,
               cpu_blocks := copyBlocks blocks cpu_blocks block_offset block_index block_count }
      else
        none

/-- device.rs `ImageFormat` (the variants used by the core). -/
inductive ImageFormat where
  | A8
  | RG8
  | RGB8
  | BGRA8
  | RGBAF32
  | Invalid
deriving DecidableEq

/-- device.rs `TextureFilter`. -/
inductive TextureFilter where
  | Nearest
  | Linear
deriving DecidableEq

/-- The slice of device texture state that `CacheTexture::update` reads and
    writes through `get_texture_dimensions` / `init_texture`: dimensions,
    pixel format and filter of the GPU cache texture.  A freshly created
    texture has width = height = 0 and format `Invalid`
    (device.rs `create_texture_ids`). -/
structure DeviceTexture where
  width : Nat
  height : Nat
  format : ImageFormat
  filter : TextureFilter
deriving DecidableEq

/-- Device calls issued by `CacheTexture::flush`, reified as events. -/
inductive DeviceOp where
  | bindPbo (pbo : Option Nat)
  | updatePboData (data : List GpuBlockData)
  | updateTextureFromPbo (texture_id x0 y0 width height offset : Nat)
  | orphanPbo (size : Nat)
deriving DecidableEq

/-- The `W`-block slice of the shadow belonging to row `i`:
    `self.cpu_blocks[i*W .. (i+1)*W]` (renderer.rs lines 353-354). -/
def rowSlice (cpu_blocks : List GpuBlockData) (i : Nat) : List GpuBlockData :=
  (cpu_blocks.drop (i * MAX_VERTEX_TEXTURE_WIDTH)).take MAX_VERTEX_TEXTURE_WIDTH

/-- The `for (row_index, row) in self.rows.iter_mut().enumerate()` loop of
    `CacheTexture::flush` (renderer.rs lines 350-374): a dirty row pushes its
    row slice into the PBO, uploads a `W`×1 subregion at `(0, row_index)`,
    orphans the PBO at the same byte size, and has its dirty bit cleared.
    The source slices `cpu_blocks[i*W..(i+1)*W]`, which panics when the
    shadow is too short; `none` models that panic. -/
def flushRows (texture_id : Nat) (cpu_blocks : List GpuBlockData) :
    Nat → List CacheRow → Option (List CacheRow × List DeviceOp)
  | _, [] => some ([], [])
  | i, r :: rs =>
      if r.is_dirty then
        if (i + 1) * MAX_VERTEX_TEXTURE_WIDTH ≤ cpu_blocks.length then
          match flushRows texture_id cpu_blocks (i + 1) rs with
          | none => none
          | some (rs2, ops) =>
              some ({ is_dirty := false } :: rs2,
                DeviceOp.updatePboData (rowSlice cpu_blocks i) ::
                DeviceOp.updateTextureFromPbo texture_id 0 i MAX_VERTEX_TEXTURE_WIDTH 1 0 ::
                DeviceOp.orphanPbo (GPU_BLOCK_DATA_SIZE * MAX_VERTEX_TEXTURE_WIDTH) :: ops)
        else none
      else
        match flushRows texture_id cpu_blocks (i + 1) rs with
        | none => none
        | some (rs2, ops) => some (r :: rs2, ops)

/-- renderer.rs lines 345-378 `CacheTexture::flush`: bind the owned PBO,
    walk the rows uploading every dirty one, then unbind the PBO. -/
def CacheTexture.flush (self : CacheTexture) : Option (CacheTexture × List DeviceOp) :=
  match flushRows self.texture_id self.cpu_blocks 0 self.rows with
  | none => none
  | some (rows2, ops) =>
      some ({ self with rows := rows2 },
            DeviceOp.bindPbo (some self.pbo_id) :: ops ++ [DeviceOp.bindPbo none])

/-- Folding `CacheTexture::apply_patch` over an update list
    (the `for update in &updates.updates` loop of `CacheTexture::update`,
    renderer.rs lines 340-342). -/
def applyPatches (blocks : List GpuBlockData) :
    CacheTexture → List GpuCacheUpdate → Option CacheTexture
  | self, [] => some self
  | self, u :: us =>
      match self.apply_patch u blocks with
      | none => none
      | some ct => applyPatches blocks ct us

/-- renderer.rs lines 315-343 `CacheTexture::update`.  If
    `updates.height > current_dimensions.height` the texture is re-initialized
    to `W × updates.height`, RGBA-F32, nearest filtering; and — only when the
    previous height was non-zero — every shadow row is marked dirty.  Then all
    patches are applied.  (The single patch loop of the source appears once in
    each branch of the resize test; the branches differ exactly in the state
    the loop starts from, as in the source.) -/
def CacheTexture.update (self : CacheTexture) (tex : DeviceTexture)
    (updates : GpuCacheUpdateList) : Option (CacheTexture × DeviceTexture) :=
  if updates.height > tex.height then
    match applyPatches updates.blocks
        (if tex.height > 0 then
          { self with rows := self.rows.map (fun _ => { is_dirty := true }) }
         else self)
        updates.updates with
    | none => none
    | some ct =>
        some (ct, ⟨MAX_VERTEX_TEXTURE_WIDTH, updates.height,
          ImageFormat.RGBAF32, TextureFilter.Nearest⟩)
  else
    match applyPatches updates.blocks self updates.updates with
    | none => none
    | some ct => some (ct, tex)

/-! ### Helper lemmas about the shadow-growing and block-copy loops -/

theorem pushEmptyRows_eq (n : Nat) (rows : List CacheRow) (blocks : List GpuBlockData) :
    pushEmptyRows n (rows, blocks) =
      (rows ++ List.replicate n CacheRow.new,
       blocks ++ List.replicate (n * MAX_VERTEX_TEXTURE_WIDTH) GpuBlockData.empty) := by
  induction n generalizing rows blocks with
  | zero => simp [pushEmptyRows]
  | succ n ih =>
      rw [pushEmptyRows, ih]
      simp only [Prod.mk.injEq, List.append_assoc]
      constructor
      · rw [List.singleton_append, ← List.replicate_succ]
      · rw [← List.replicate_add, Nat.succ_mul, Nat.add_comm]

theorem copyBlocks_length (src dst : List GpuBlockData) (off si n : Nat) :
    (copyBlocks src dst off si n).length = dst.length := by
  induction n generalizing dst off si with
  | zero => rfl
  | succ n ih => rw [copyBlocks, ih, List.length_set]

theorem copyBlocks_getElem?_of_lt (src dst : List GpuBlockData) (off si n j : Nat)
    (h : j < off) : (copyBlocks src dst off si n)[j]? = dst[j]? := by
  induction n generalizing dst off si with
  | zero => rfl
  | succ n ih =>
      rw [copyBlocks, ih _ (off + 1) (si + 1) (by omega)]
      exact List.getElem?_set_ne (by omega)

theorem copyBlocks_getElem?_of_ge (src dst : List GpuBlockData) (off si n j : Nat)
    (h : off + n ≤ j) : (copyBlocks src dst off si n)[j]? = dst[j]? := by
  induction n generalizing dst off si with
  | zero => rfl
  | succ n ih =>
      rw [copyBlocks, ih _ (off + 1) (si + 1) (by omega)]
      exact List.getElem?_set_ne (by omega)

theorem copyBlocks_getElem?_inside (src dst : List GpuBlockData) (off si n i : Nat)
    (hi : i < n) (hlen : off + n ≤ dst.length) :
    (copyBlocks src dst off si n)[off + i]? =
      some (src.getD (si + i) GpuBlockData.empty) := by
  induction n generalizing dst off si i with
  | zero => omega
  | succ n ih =>
      rw [copyBlocks]
      cases i with
      | zero =>
          rw [copyBlocks_getElem?_of_lt _ _ _ _ _ _ (by omega)]
          simp [List.getElem?_set_self, Nat.lt_of_lt_of_le (Nat.lt_of_lt_of_le
            (Nat.lt_succ_of_le (Nat.le_refl off)) (by omega)) (Nat.le_refl dst.length)]
      | succ i =>
          have harith : off + (i + 1) = (off + 1) + i := by omega
          rw [harith, ih _ (off + 1) (si + 1) i (by omega) (by rw [List.length_set]; omega)]
          have : si + 1 + i = si + (i + 1) := by omega
          rw [this]

theorem getElem?_eq_some_getD {l : List GpuBlockData} {n : Nat} (h : n < l.length) :
    l[n]? = some (l.getD n GpuBlockData.empty) := by
  simp [List.getD_eq_getElem?_getD, List.getElem?_eq_getElem h]

/-! ### Claim C1 -/

/-- The post-state facts claim C1 asserts about one successful
    `apply_patch` of `Copy { block_index := bi, block_count := bc,
    address := (u, v) }`: at least `v+1` rows, the width invariant, row `v`
    dirty, the target range holding the copied blocks, all other existing
    blocks unchanged, all other new blocks zero, all other rows keeping
    their dirty bit (new ones clean). -/
def C1Post (self ct2 : CacheTexture) (bi bc u v : Nat)
    (blocks : List GpuBlockData) : Prop :=
  v + 1 ≤ ct2.rows.length ∧
  ct2.rows.length = self.rows.length + (v + 1 - self.rows.length) ∧
  ct2.cpu_blocks.length = ct2.rows.length * MAX_VERTEX_TEXTURE_WIDTH ∧
  ct2.rows[v]? = some { is_dirty := true } ∧
  (∀ i, i < bc →
    ct2.cpu_blocks[v * MAX_VERTEX_TEXTURE_WIDTH + u + i]? = blocks[bi + i]?) ∧
  (∀ j, j < self.cpu_blocks.length →
    (j < v * MAX_VERTEX_TEXTURE_WIDTH + u ∨ v * MAX_VERTEX_TEXTURE_WIDTH + u + bc ≤ j) →
    ct2.cpu_blocks[j]? = self.cpu_blocks[j]?) ∧
  (∀ j, self.cpu_blocks.length ≤ j → j < ct2.cpu_blocks.length →
    (j < v * MAX_VERTEX_TEXTURE_WIDTH + u ∨ v * MAX_VERTEX_TEXTURE_WIDTH + u + bc ≤ j) →
    ct2.cpu_blocks[j]? = some GpuBlockData.empty) ∧
  (∀ r, r < ct2.rows.length → r ≠ v →
    ct2.rows[r]? = if r < self.rows.length then self.rows[r]? else some { is_dirty := false })

/-- Full characterization of a successful `apply_patch` (shared helper:
    claims C1 and C9 both read off facts from it). -/
theorem apply_patch_spec (self : CacheTexture) (bi bc u v : Nat)
    (blocks : List GpuBlockData) (ct2 : CacheTexture)
    (hinv : self.cpu_blocks.length = self.rows.length * MAX_VERTEX_TEXTURE_WIDTH)
    (h : self.apply_patch (GpuCacheUpdate.Copy bi bc ⟨u, v⟩) blocks = some ct2) :
    C1Post self ct2 bi bc u v blocks := by
  simp only [CacheTexture.apply_patch, pushEmptyRows_eq] at h
  split at h
  case isFalse => exact absurd h (by simp)
  case isTrue hcond =>
    obtain ⟨hc1, hc2⟩ := hcond
    injection h with h
    subst h
    simp only [List.length_append, List.length_replicate] at hc1
    refine ⟨?_, ?_, ?_, ?_, ?_, ?_, ?_, ?_⟩
    · simp only [List.length_set, List.length_append, List.length_replicate]
      omega
    · simp only [List.length_set, List.length_append, List.length_replicate]
    · simp only [copyBlocks_length, List.length_set, List.length_append,
        List.length_replicate]
      rw [hinv, ← Nat.add_mul]
    · exact List.getElem?_set_eq_of_lt _ (by
        simp only [List.length_append, List.length_replicate]; omega)
    · intro i hi
      have hlen : v * MAX_VERTEX_TEXTURE_WIDTH + u + bc ≤
          (self.cpu_blocks ++ List.replicate ((v + 1 - self.rows.length) * MAX_VERTEX_TEXTURE_WIDTH) GpuBlockData.empty).length := by
        simp only [List.length_append, List.length_replicate]
        omega
      rw [copyBlocks_getElem?_inside _ _ _ _ _ _ hi hlen,
        getElem?_eq_some_getD (Nat.lt_of_lt_of_le (by omega) hc2)]
    · intro j hj hout
      have hgo : (copyBlocks blocks
          (self.cpu_blocks ++ List.replicate ((v + 1 - self.rows.length) * MAX_VERTEX_TEXTURE_WIDTH) GpuBlockData.empty)
          (v * MAX_VERTEX_TEXTURE_WIDTH + u) bi bc)[j]? =
          (self.cpu_blocks ++ List.replicate ((v + 1 - self.rows.length) * MAX_VERTEX_TEXTURE_WIDTH) GpuBlockData.empty)[j]? := by
        rcases hout with hlt | hge
        · exact copyBlocks_getElem?_of_lt _ _ _ _ _ _ hlt
        · exact copyBlocks_getElem?_of_ge _ _ _ _ _ _ hge
      rw [hgo, List.getElem?_append_left hj]
    · intro j hjlo hjhi hout
      have hgo : (copyBlocks blocks
          (self.cpu_blocks ++ List.replicate ((v + 1 - self.rows.length) * MAX_VERTEX_TEXTURE_WIDTH) GpuBlockData.empty)
          (v * MAX_VERTEX_TEXTURE_WIDTH + u) bi bc)[j]? =
          (self.cpu_blocks ++ List.replicate ((v + 1 - self.rows.length) * MAX_VERTEX_TEXTURE_WIDTH) GpuBlockData.empty)[j]? := by
        rcases hout with hlt | hge
        · exact copyBlocks_getElem?_of_lt _ _ _ _ _ _ hlt
        · exact copyBlocks_getElem?_of_ge _ _ _ _ _ _ hge
      rw [copyBlocks_length, List.length_append, List.length_replicate] at hjhi
      rw [hgo, List.getElem?_append_right hjlo]
      simp [List.getElem?_replicate]
      omega
    · intro r hr hrv
      rw [List.length_set, List.length_append, List.length_replicate] at hr
      rw [List.getElem?_set_ne (Ne.symm hrv)]
      split
      case isTrue hlt => exact List.getElem?_append_left hlt
      case isFalse hge =>
        rw [List.getElem?_append_right (Nat.le_of_not_lt hge)]
        simp only [List.getElem?_replicate, CacheRow.new]
        rw [if_pos (by omega)]

/-- A sufficient condition for `apply_patch` not to panic: the copied range
    lies inside the grown shadow and the source range inside `blocks`. -/
theorem apply_patch_isSome (self : CacheTexture) (bi bc u v : Nat)
    (blocks : List GpuBlockData)
    (h1 : v * MAX_VERTEX_TEXTURE_WIDTH + u + bc ≤ self.cpu_blocks.length +
      (v + 1 - self.rows.length) * MAX_VERTEX_TEXTURE_WIDTH)
    (h2 : bi + bc ≤ blocks.length) :
    ∃ ct2, self.apply_patch (GpuCacheUpdate.Copy bi bc ⟨u, v⟩) blocks = some ct2 := by
  simp only [CacheTexture.apply_patch, pushEmptyRows_eq]
  rw [if_pos]
  · exact ⟨_, rfl⟩
  · refine ⟨?_, h2⟩
    simpa [List.length_append, List.length_replicate] using h1

/-- When the copied range overruns the grown shadow, the slice in
    `apply_patch` is out of bounds and the source panics. -/
theorem apply_patch_eq_none (self : CacheTexture) (bi bc u v : Nat)
    (blocks : List GpuBlockData)
    (h1 : ¬ v * MAX_VERTEX_TEXTURE_WIDTH + u + bc ≤ self.cpu_blocks.length +
      (v + 1 - self.rows.length) * MAX_VERTEX_TEXTURE_WIDTH) :
    self.apply_patch (GpuCacheUpdate.Copy bi bc ⟨u, v⟩) blocks = none := by
  simp only [CacheTexture.apply_patch, pushEmptyRows_eq]
  rw [if_neg]
  rintro ⟨hc1,-⟩
  exact h1 (by simpa [List.length_append, List.length_replicate] using hc1)

/-- C1: every `GpuCacheUpdate::Copy { block_index, block_count, address:{u,v} }`
    applied through `CacheTexture::apply_patch` leaves the CPU shadow with at
    least `v+1` rows (new rows zero-initialized, `MAX_VERTEX_TEXTURE_WIDTH`
    blocks wide), row `v` dirty, the shadow blocks at `v*W+u ..
    v*W+u+block_count-1` equal to `blocks[block_index ..
    block_index+block_count-1]`, and every other shadow block unchanged. -/
theorem C1_apply_patch_correct (self : CacheTexture) (bi bc u v : Nat)
    (blocks : List GpuBlockData) (ct2 : CacheTexture)
    (hinv : self.cpu_blocks.length = self.rows.length * MAX_VERTEX_TEXTURE_WIDTH)
    (h : self.apply_patch (GpuCacheUpdate.Copy bi bc ⟨u, v⟩) blocks = some ct2) :
    C1Post self ct2 bi bc u v blocks :=
  apply_patch_spec self bi bc u v blocks ct2 hinv h

/-- Witness for C1: a concrete patch (one block copied to `(u,v) = (2,0)` of
    an empty cache) satisfying both hypotheses of `C1_apply_patch_correct`. -/
theorem C1_apply_patch_correct_witness :
    CacheTexture.apply_patch ⟨7, 8, [], []⟩ (GpuCacheUpdate.Copy 0 1 ⟨2, 0⟩)
        [⟨1, 2, 3, 4⟩] =
      some ⟨7, 8, [{ is_dirty := true }],
        copyBlocks [⟨1, 2, 3, 4⟩] (List.replicate 1024 GpuBlockData.empty) 2 0 1⟩ ∧
    C1Post ⟨7, 8, [], []⟩
      ⟨7, 8, [{ is_dirty := true }],
        copyBlocks [⟨1, 2, 3, 4⟩] (List.replicate 1024 GpuBlockData.empty) 2 0 1⟩
      0 1 2 0 [⟨1, 2, 3, 4⟩] :=
  have h : CacheTexture.apply_patch ⟨7, 8, [], []⟩ (GpuCacheUpdate.Copy 0 1 ⟨2, 0⟩)
      [⟨1, 2, 3, 4⟩] =
      some ⟨7, 8, [{ is_dirty := true }],
        copyBlocks [⟨1, 2, 3, 4⟩] (List.replicate 1024 GpuBlockData.empty) 2 0 1⟩ := by
    simp [CacheTexture.apply_patch, pushEmptyRows_eq, MAX_VERTEX_TEXTURE_WIDTH]
  ⟨h, C1_apply_patch_correct ⟨7, 8, [], []⟩ 0 1 2 0 [⟨1, 2, 3, 4⟩] _ rfl h⟩

/-! ### Claim C9 -/

/-- C9: `apply_patch` never checks `u + block_count ≤ 1024`.  First conjunct:
    on a cache with two allocated rows, `Copy { block_count := 2,
    address := (1023, 0) }` writes its second block into flat position 1024 —
    the first block of row 1 — while row 1 keeps `is_dirty = false` (and only
    row 0 is marked).  Second conjunct: on a cache where row `v` is the last
    allocated row, the same update makes the slice
    `cpu_blocks[1023..1025]` out of range, i.e. the source panics. -/
theorem C9_apply_patch_overflows_row :
    ((CacheTexture.apply_patch
        ⟨3, 4, [{ is_dirty := false }, { is_dirty := false }],
          List.replicate 2048 GpuBlockData.empty⟩
        (GpuCacheUpdate.Copy 0 2 ⟨1023, 0⟩)
        [⟨1, 1, 1, 1⟩, ⟨2, 2, 2, 2⟩]).map
      (fun ct2 => (ct2.cpu_blocks[1024]?, ct2.rows[1]?, ct2.rows[0]?)) =
      some (some ⟨2, 2, 2, 2⟩, some { is_dirty := false }, some { is_dirty := true })) ∧
    (CacheTexture.apply_patch ⟨3, 4, [], []⟩
        (GpuCacheUpdate.Copy 0 2 ⟨1023, 0⟩)
        [⟨1, 1, 1, 1⟩, ⟨2, 2, 2, 2⟩] = none) := by
  constructor
  · obtain ⟨ct2, happ⟩ := apply_patch_isSome
      ⟨3, 4, [{ is_dirty := false }, { is_dirty := false }],
        List.replicate 2048 GpuBlockData.empty⟩ 0 2 1023 0
      [⟨1, 1, 1, 1⟩, ⟨2, 2, 2, 2⟩]
      (by rw [List.length_replicate]; decide) (by decide)
    have hspec := apply_patch_spec _ 0 2 1023 0 _ ct2
      (by rw [List.length_replicate]; rfl) happ
    obtain ⟨-, hlen, -, hdirty, hcopy, -, -, hrows⟩ := hspec
    rw [happ]
    simp only [Option.map_some']
    have h1 : ct2.cpu_blocks[1024]? = some ⟨2, 2, 2, 2⟩ := by
      have := hcopy 1 (by decide)
      rw [show 0 * MAX_VERTEX_TEXTURE_WIDTH + 1023 + 1 = 1024 by decide] at this
      rw [this]
      rfl
    have h2 : ct2.rows[1]? = some { is_dirty := false } := by
      simp only [List.length_cons, List.length_nil] at hlen
      have := hrows 1 (by omega) (by decide)
      rw [this]
      rfl
    rw [h1, h2, hdirty]
  · exact apply_patch_eq_none _ 0 2 1023 0 _ (by simp; decide)

/-! ### Claim C2 -/

/-- Indices (counted from `i`) of the rows whose dirty bit is set. -/
def dirtyIndices : Nat → List CacheRow → List Nat
  | _, [] => []
  | i, r :: rs =>
      if r.is_dirty then i :: dirtyIndices (i + 1) rs else dirtyIndices (i + 1) rs

/-- The three-event PBO staging group `flush` performs for one dirty row:
    push the row into the PBO, upload the `W`×1 subregion, orphan the PBO at
    the same size. -/
def flushGroup (texture_id : Nat) (cpu_blocks : List GpuBlockData) (k : Nat) :
    List DeviceOp :=
  [DeviceOp.updatePboData (rowSlice cpu_blocks k),
   DeviceOp.updateTextureFromPbo texture_id 0 k MAX_VERTEX_TEXTURE_WIDTH 1 0,
   DeviceOp.orphanPbo (GPU_BLOCK_DATA_SIZE * MAX_VERTEX_TEXTURE_WIDTH)]

/-- What claim C2 says `flush` does: clear every dirty bit, change nothing
    else, and issue — between a bind and an unbind of the owned PBO — exactly
    one staging group per dirty row, in row order. -/
def flushSpec (self : CacheTexture) : CacheTexture × List DeviceOp :=
  ({ self with rows := self.rows.map (fun _ => { is_dirty := false }) },
   DeviceOp.bindPbo (some self.pbo_id) ::
     ((dirtyIndices 0 self.rows).map
       (flushGroup self.texture_id self.cpu_blocks)).flatten ++
     [DeviceOp.bindPbo none])

theorem flushRows_eq (texture_id : Nat) (cpu_blocks : List GpuBlockData)
    (rs : List CacheRow) (i : Nat)
    (h : (i + rs.length) * MAX_VERTEX_TEXTURE_WIDTH ≤ cpu_blocks.length) :
    flushRows texture_id cpu_blocks i rs =
      some (rs.map (fun _ => { is_dirty := false }),
        ((dirtyIndices i rs).map (flushGroup texture_id cpu_blocks)).flatten) := by
  induction rs generalizing i with
  | nil => rfl
  | cons r rs ih =>
      rw [List.length_cons] at h
      have hstep : (i + 1 + rs.length) * MAX_VERTEX_TEXTURE_WIDTH ≤ cpu_blocks.length := by
        have heq : i + 1 + rs.length = i + (rs.length + 1) := by omega
        rw [heq]
        exact h
      have hrow : (i + 1) * MAX_VERTEX_TEXTURE_WIDTH ≤ cpu_blocks.length :=
        Nat.le_trans (Nat.mul_le_mul_right _ (by omega)) h
      obtain ⟨d⟩ := r
      cases d with
      | true => simp [flushRows, dirtyIndices, ih (i + 1) hstep, hrow, flushGroup]
      | false => simp [flushRows, dirtyIndices, ih (i + 1) hstep]

/-- Membership in `dirtyIndices`, phrased through the row lookup. -/
theorem mem_dirtyIndices (rs : List CacheRow) : ∀ (i k : Nat),
    k ∈ dirtyIndices i rs ↔
      ∃ j, i + j = k ∧ rs[j]? = some { is_dirty := true } := by
  induction rs with
  | nil =>
      intro i k
      simp [dirtyIndices]
  | cons r rs ih =>
      intro i k
      obtain ⟨d⟩ := r
      cases d with
      | true =>
          rw [dirtyIndices, if_pos rfl, List.mem_cons, ih (i + 1) k]
          constructor
          · rintro (rfl | ⟨j, hj1, hj2⟩)
            · exact ⟨0, by omega, by simp⟩
            · exact ⟨j + 1, by omega, by simpa using hj2⟩
          · rintro ⟨j, hj1, hj2⟩
            cases j with
            | zero => exact Or.inl (by omega)
            | succ j => exact Or.inr ⟨j, by omega, by simpa using hj2⟩
      | false =>
          rw [dirtyIndices, if_neg (by simp), ih (i + 1) k]
          constructor
          · rintro ⟨j, hj1, hj2⟩
            exact ⟨j + 1, by omega, by simpa using hj2⟩
          · rintro ⟨j, hj1, hj2⟩
            cases j with
            | zero => simp at hj2
            | succ j => exact ⟨j, by omega, by simpa using hj2⟩

/-- A row upload appears in the C2 trace exactly for the dirty indices. -/
theorem upload_mem_flushSpec (self : CacheTexture) (k : Nat) :
    DeviceOp.updateTextureFromPbo self.texture_id 0 k MAX_VERTEX_TEXTURE_WIDTH 1 0 ∈
      (flushSpec self).2 ↔ k ∈ dirtyIndices 0 self.rows := by
  have hgroup : ∀ k2, (DeviceOp.updateTextureFromPbo self.texture_id 0 k
      MAX_VERTEX_TEXTURE_WIDTH 1 0 ∈
        flushGroup self.texture_id self.cpu_blocks k2) ↔ k = k2 := by
    intro k2
    simp [flushGroup]
  constructor
  · intro h
    rcases List.mem_cons.mp h with h | h
    · exact absurd h (by simp)
    rcases List.mem_append.mp h with h | h
    · obtain ⟨l, hl, hmem⟩ := List.mem_flatten.mp h
      obtain ⟨k2, hk2, hfk⟩ := List.mem_map.mp hl
      subst hfk
      have hkk := (hgroup k2).mp hmem
      subst hkk
      exact hk2
    · exact absurd (List.mem_singleton.mp h) (by simp)
  · intro hk
    exact List.mem_cons_of_mem _ (List.mem_append_left _ (List.mem_flatten.mpr
      ⟨flushGroup self.texture_id self.cpu_blocks k,
       List.mem_map_of_mem _ hk, (hgroup k).mpr rfl⟩))

/-- C2: on a shadow satisfying the width invariant, `flush` does not panic
    and issues exactly this trace: bind the owned PBO; for each dirty row in
    increasing order one `updatePboData`(that row\x27s `W` blocks) /
    `updateTextureFromPbo`(`W`×1 subregion at `(0, row)`) /
    `orphanPbo`(same byte size) group; unbind the PBO.  All dirty bits are
    cleared and nothing else changes.  The second conjunct states
    "exactly the dirty rows": a row upload appears in the trace iff that
    row\x27s dirty bit was set. -/
theorem C2_flush_uploads_exactly_dirty_rows (self : CacheTexture)
    (hinv : self.cpu_blocks.length = self.rows.length * MAX_VERTEX_TEXTURE_WIDTH) :
    self.flush = some (flushSpec self) ∧
    ∀ k, (DeviceOp.updateTextureFromPbo self.texture_id 0 k
            MAX_VERTEX_TEXTURE_WIDTH 1 0) ∈ (flushSpec self).2 ↔
          self.rows[k]? = some { is_dirty := true } := by
  constructor
  · rw [CacheTexture.flush, flushRows_eq self.texture_id self.cpu_blocks self.rows 0
      (by rw [Nat.zero_add, hinv])]
    rfl
  · intro k
    rw [upload_mem_flushSpec, mem_dirtyIndices]
    constructor
    · rintro ⟨j, hj, hmem⟩
      have hjk : j = k := by omega
      subst hjk
      exact hmem
    · intro hk
      exact ⟨k, by omega, hk⟩

/-- Witness for C2: a two-row cache with only row 0 dirty. -/
theorem C2_flush_witness :
    CacheTexture.flush ⟨1, 2, [{ is_dirty := true }, { is_dirty := false }],
        List.replicate 2048 GpuBlockData.empty⟩ =
      some (flushSpec ⟨1, 2, [{ is_dirty := true }, { is_dirty := false }],
        List.replicate 2048 GpuBlockData.empty⟩) ∧
    (DeviceOp.updateTextureFromPbo 1 0 0 MAX_VERTEX_TEXTURE_WIDTH 1 0 ∈
        (flushSpec ⟨1, 2, [{ is_dirty := true }, { is_dirty := false }],
          List.replicate 2048 GpuBlockData.empty⟩).2 ↔
      ([{ is_dirty := true }, { is_dirty := false }] : List CacheRow)[0]? =
        some { is_dirty := true }) :=
  have hmain := C2_flush_uploads_exactly_dirty_rows
    ⟨1, 2, [{ is_dirty := true }, { is_dirty := false }],
      List.replicate 2048 GpuBlockData.empty⟩
    (by rw [List.length_replicate]; rfl)
  ⟨hmain.1, hmain.2 0⟩

/-! ### Claim C3 -/

theorem getElem?_isSome_lt {α : Type} {l : List α} {n : Nat} {a : α}
    (h : l[n]? = some a) : n < l.length := by
  by_contra hcon
  rw [List.getElem?_eq_none (Nat.le_of_not_lt hcon)] at h
  cases h

/-- `apply_patch` never clears a dirty bit: a row that was dirty before is
    still dirty after. -/
theorem apply_patch_preserves_dirty (self : CacheTexture) (u : GpuCacheUpdate)
    (blocks : List GpuBlockData) (ct2 : CacheTexture) (r : Nat)
    (h : self.apply_patch u blocks = some ct2)
    (hd : self.rows[r]? = some { is_dirty := true }) :
    ct2.rows[r]? = some { is_dirty := true } := by
  obtain ⟨bi, bc, a⟩ := u
  have hr : r < self.rows.length := getElem?_isSome_lt hd
  simp only [CacheTexture.apply_patch, pushEmptyRows_eq] at h
  split at h
  case isFalse => exact absurd h (by simp)
  case isTrue =>
    injection h with h
    subst h
    by_cases hv : r = a.v
    · subst hv
      exact List.getElem?_set_eq_of_lt _ (by
        simp only [List.length_append, List.length_replicate]
        omega)
    · rw [List.getElem?_set_ne (by omega), List.getElem?_append_left hr]
      exact hd

/-- `applyPatches` never clears a dirty bit either. -/
theorem applyPatches_preserves_dirty (blocks : List GpuBlockData)
    (us : List GpuCacheUpdate) :
    ∀ (self ct2 : CacheTexture) (r : Nat),
      applyPatches blocks self us = some ct2 →
      self.rows[r]? = some { is_dirty := true } →
      ct2.rows[r]? = some { is_dirty := true } := by
  induction us with
  | nil =>
      intro self ct2 r h hd
      injection h with h
      subst h
      exact hd
  | cons u us ih =>
      intro self ct2 r h hd
      rw [applyPatches] at h
      cases hstep : self.apply_patch u blocks with
      | none => rw [hstep] at h; cases h
      | some ct1 =>
          rw [hstep] at h
          exact ih ct1 ct2 r h (apply_patch_preserves_dirty self u blocks ct1 r hstep hd)

/-- Counterexample to C3 as stated: a GPU cache whose device texture still
    has height 0 (freshly created, never initialized) but whose shadow
    already has a (clean) row.  The update list has height 1 > 0, so the
    texture is reallocated — yet row 0 of the shadow is NOT marked dirty,
    because the marking loop only runs when the previous height was
    non-zero (renderer.rs lines 330-337). -/
theorem C3_counterexample :
    ¬ (∀ (self : CacheTexture) (tex : DeviceTexture) (ul : GpuCacheUpdateList)
        (res : CacheTexture × DeviceTexture),
        ul.height > tex.height →
        self.update tex ul = some res →
        ∀ r, r < res.1.rows.length → res.1.rows[r]? = some { is_dirty := true }) := by
  intro hclaim
  have h := hclaim
    ⟨5, 6, [{ is_dirty := false }], List.replicate 1024 GpuBlockData.empty⟩
    ⟨0, 0, ImageFormat.Invalid, TextureFilter.Nearest⟩
    ⟨1, [], []⟩
    (⟨5, 6, [{ is_dirty := false }], List.replicate 1024 GpuBlockData.empty⟩,
     ⟨MAX_VERTEX_TEXTURE_WIDTH, 1, ImageFormat.RGBAF32, TextureFilter.Nearest⟩)
    (by decide)
    (by rw [CacheTexture.update]; rfl)
    0 (by simp)
  simp at h

/-- C3 (amended): if `updates.height` exceeds the current texture height,
    `CacheTexture::update` reallocates the texture to
    `MAX_VERTEX_TEXTURE_WIDTH × updates.height`, format RGBA-F32, nearest
    filtering — and, provided the previous texture height was non-zero,
    every row of the CPU shadow present at entry is dirty afterwards (the
    patches applied subsequently never clear a dirty bit).  When the
    previous height was 0, the rows are not marked. -/
theorem C3_update_grow_marks_dirty (self : CacheTexture) (tex : DeviceTexture)
    (ul : GpuCacheUpdateList) (res : CacheTexture × DeviceTexture)
    (hh : ul.height > tex.height)
    (h : self.update tex ul = some res) :
    res.2 = ⟨MAX_VERTEX_TEXTURE_WIDTH, ul.height, ImageFormat.RGBAF32,
      TextureFilter.Nearest⟩ ∧
    (0 < tex.height →
      ∀ r, r < self.rows.length → res.1.rows[r]? = some { is_dirty := true }) := by
  rw [CacheTexture.update, if_pos hh] at h
  by_cases hpos : 0 < tex.height
  · rw [if_pos hpos] at h
    cases happ : applyPatches ul.blocks
        { self with rows := self.rows.map (fun _ => { is_dirty := true }) }
        ul.updates with
    | none =>
        rw [happ] at h
        cases h
    | some ct =>
        rw [happ] at h
        injection h with h
        subst h
        refine ⟨rfl, fun _ r hr => ?_⟩
        refine applyPatches_preserves_dirty ul.blocks ul.updates _ ct r happ ?_
        simp only [List.getElem?_map]
        rw [List.getElem?_eq_getElem hr]
        rfl
  · rw [if_neg hpos] at h
    cases happ : applyPatches ul.blocks self ul.updates with
    | none =>
        rw [happ] at h
        cases h
    | some ct =>
        rw [happ] at h
        injection h with h
        subst h
        exact ⟨rfl, fun hpos2 => absurd hpos2 hpos⟩

/-- Witness for C3 (amended): previous height 1, growing to height 2. -/
theorem C3_update_grow_marks_dirty_witness :
    ((⟨5, 6, [{ is_dirty := false }], List.replicate 1024 GpuBlockData.empty⟩ :
        CacheTexture).update
      ⟨MAX_VERTEX_TEXTURE_WIDTH, 1, ImageFormat.RGBAF32, TextureFilter.Nearest⟩
      ⟨2, [], []⟩ =
      some (⟨5, 6, [{ is_dirty := true }], List.replicate 1024 GpuBlockData.empty⟩,
        ⟨MAX_VERTEX_TEXTURE_WIDTH, 2, ImageFormat.RGBAF32, TextureFilter.Nearest⟩)) ∧
    (⟨MAX_VERTEX_TEXTURE_WIDTH, 2, ImageFormat.RGBAF32, TextureFilter.Nearest⟩ :
      DeviceTexture) =
      ⟨MAX_VERTEX_TEXTURE_WIDTH, 2, ImageFormat.RGBAF32, TextureFilter.Nearest⟩ ∧
    ([{ is_dirty := true }] : List CacheRow)[0]? = some { is_dirty := true } :=
  have hupd : (⟨5, 6, [{ is_dirty := false }],
      List.replicate 1024 GpuBlockData.empty⟩ : CacheTexture).update
      ⟨MAX_VERTEX_TEXTURE_WIDTH, 1, ImageFormat.RGBAF32, TextureFilter.Nearest⟩
      ⟨2, [], []⟩ =
      some (⟨5, 6, [{ is_dirty := true }], List.replicate 1024 GpuBlockData.empty⟩,
        ⟨MAX_VERTEX_TEXTURE_WIDTH, 2, ImageFormat.RGBAF32, TextureFilter.Nearest⟩) := by
    rw [CacheTexture.update]
    rfl
  have hmain := C3_update_grow_marks_dirty
    ⟨5, 6, [{ is_dirty := false }], List.replicate 1024 GpuBlockData.empty⟩
    ⟨MAX_VERTEX_TEXTURE_WIDTH, 1, ImageFormat.RGBAF32, TextureFilter.Nearest⟩
    ⟨2, [], []⟩
    (⟨5, 6, [{ is_dirty := true }], List.replicate 1024 GpuBlockData.empty⟩,
     ⟨MAX_VERTEX_TEXTURE_WIDTH, 2, ImageFormat.RGBAF32, TextureFilter.Nearest⟩)
    (by decide) hupd
  ⟨hupd, hmain.1, hmain.2 (by decide) 0 (by simp)⟩

/-! ### Claim C4 -/

/-- renderer.rs line 242 `BlendMode`.  The `ColorF` payload of `Subpixel` is
    carried as four `Int`s: `draw_color_target` only compares it and forwards
    it to `set_blend_mode_subpixel`. -/
inductive BlendMode where
  | None
  | Alpha
  | PremultipliedAlpha
  | Subpixel (r g b a : Int)
deriving DecidableEq

/-- tiling.rs `PrimitiveBatch` as read by `draw_color_target`
    (tiling.rs is not under src/): the only field the batch-ordering logic
    inspects is `key.blend_mode`, flattened here; `id` tags the batch so the
    theorems can track which batch each `submit_batch` call received. -/
structure PrimitiveBatch where
  id : Nat
  blend_mode : BlendMode
deriving DecidableEq

/-- tiling.rs `BatchList { opaque_batches, alpha_batches }` as read by
    renderer.rs lines 2040-2055. -/
structure BatchList where
  opaque_batches : List PrimitiveBatch
  alpha_batches : List PrimitiveBatch
deriving DecidableEq

/-- tiling.rs `AlphaBatcher` as read by renderer.rs. -/
structure AlphaBatcher where
  batch_list : BatchList
deriving DecidableEq

/-- Modelled from the spec: `AlphaBatcher::is_empty` lives in tiling.rs,
    which is not under src/.  Per the spec the alpha-batch phase runs iff the
    batcher has any batch, so empty means both batch lists are empty. -/
def AlphaBatcher.is_empty (b : AlphaBatcher) : Bool :=
  b.batch_list.opaque_batches.isEmpty && b.batch_list.alpha_batches.isEmpty

/-- The slice of tiling.rs `ColorRenderTarget` that the alpha-batch phase of
    `draw_color_target` reads. -/
structure ColorRenderTarget where
  alpha_batcher : AlphaBatcher
deriving DecidableEq

/-- device.rs `DepthFunction`. -/
inductive DepthFunction where
  | Less
  | LessEqual
deriving DecidableEq

/-- GL state / draw events issued by the alpha-batch phase of
    `Renderer::draw_color_target` (renderer.rs lines 2028-2087); `submit`
    stands for the `submit_batch` call. -/
inductive GlStateOp where
  | setBlend (enabled : Bool)
  | setBlendModeAlpha
  | setBlendModePremultipliedAlpha
  | setBlendModeSubpixel (r g b a : Int)
  | setDepthFunc (f : DepthFunction)
  | enableDepth
  | enableDepthWrite
  | disableDepthWrite
  | disableDepth
  | submit (b : PrimitiveBatch)
deriving DecidableEq

/-- The `match batch.key.blend_mode` block of renderer.rs lines 2057-2073:
    the `set_blend` / `set_blend_mode` calls issued when switching to a
    blend mode. -/
def switchOps : BlendMode → List GlStateOp
  | BlendMode.None => [GlStateOp.setBlend false]
  | BlendMode.Alpha => [GlStateOp.setBlend true, GlStateOp.setBlendModeAlpha]
  | BlendMode.PremultipliedAlpha =>
      [GlStateOp.setBlend true, GlStateOp.setBlendModePremultipliedAlpha]
  | BlendMode.Subpixel r g b a =>
      [GlStateOp.setBlend true, GlStateOp.setBlendModeSubpixel r g b a]

/-- The `for batch in &target.alpha_batcher.batch_list.alpha_batches` loop of
    renderer.rs lines 2055-2083, with its `prev_blend_mode` switching: events
    are emitted only when the mode differs from the previous batch.  (The
    source assigns `prev_blend_mode` only inside the if; since on the other
    branch the two are equal, passing `b.blend_mode` down is the same.) -/
def alphaBatchLoop : BlendMode → List PrimitiveBatch → List GlStateOp
  | _, [] => []
  | prev, b :: bs =>
      (if b.blend_mode ≠ prev then switchOps b.blend_mode else []) ++
      GlStateOp.submit b :: alphaBatchLoop b.blend_mode bs

/-- renderer.rs lines 2028-2087: the alpha-batcher phase of
    `draw_color_target`.  Nothing happens when the batcher is empty;
    otherwise: blend off, depth func less-equal, depth test and depth write
    on, opaque batches submitted in reverse order, depth write off, the alpha
    loop, then depth and blend disabled. -/
def draw_color_target_alpha_phase (target : ColorRenderTarget) : List GlStateOp :=
  if target.alpha_batcher.is_empty then []
  else
    GlStateOp.setBlend false ::
    GlStateOp.setDepthFunc DepthFunction.LessEqual ::
    GlStateOp.enableDepth ::
    GlStateOp.enableDepthWrite ::
    (target.alpha_batcher.batch_list.opaque_batches.reverse.map GlStateOp.submit ++
     GlStateOp.disableDepthWrite ::
     (alphaBatchLoop BlendMode.None target.alpha_batcher.batch_list.alpha_batches ++
      [GlStateOp.disableDepth, GlStateOp.setBlend false]))

/-- Abstract GL pipeline state driven by the events above. -/
structure GlState where
  blend : Bool
  blend_mode : BlendMode
  depth_test : Bool
  depth_write : Bool
  depth_func : DepthFunction
deriving DecidableEq

def stepGl (s : GlState) : GlStateOp → GlState
  | GlStateOp.setBlend b => { s with blend := b }
  | GlStateOp.setBlendModeAlpha => { s with blend_mode := BlendMode.Alpha }
  | GlStateOp.setBlendModePremultipliedAlpha =>
      { s with blend_mode := BlendMode.PremultipliedAlpha }
  | GlStateOp.setBlendModeSubpixel r g b a =>
      { s with blend_mode := BlendMode.Subpixel r g b a }
  | GlStateOp.setDepthFunc f => { s with depth_func := f }
  | GlStateOp.enableDepth => { s with depth_test := true }
  | GlStateOp.enableDepthWrite => { s with depth_write := true }
  | GlStateOp.disableDepthWrite => { s with depth_write := false }
  | GlStateOp.disableDepth => { s with depth_test := false }
  | GlStateOp.submit _ => s

def runGl : GlState → List GlStateOp → GlState
  | s, [] => s
  | s, op :: ops => runGl (stepGl s op) ops

/-- The submission (if any) an event contributes, paired with the state in
    force when it is issued. -/
def submitStep (s : GlState) : GlStateOp → List (GlState × PrimitiveBatch)
  | GlStateOp.submit b => [(s, b)]
  | _ => []

/-- The submissions in a trace, each paired with the GL state in force when
    it was issued. -/
def submitsWithState : GlState → List GlStateOp → List (GlState × PrimitiveBatch)
  | _, [] => []
  | s, op :: ops => submitStep s op ++ submitsWithState (stepGl s op) ops

def submittedBatch : GlStateOp → Option PrimitiveBatch
  | GlStateOp.submit b => some b
  | _ => none

def isSetBlend : GlStateOp → Bool
  | GlStateOp.setBlend _ => true
  | _ => false

/-- Number of loop iterations at which the blend mode differs from the
    previous batch (the first batch is compared against `None`, as in
    renderer.rs line 2031). -/
def blendSwitchCount : BlendMode → List PrimitiveBatch → Nat
  | _, [] => 0
  | prev, b :: bs =>
      (if b.blend_mode ≠ prev then 1 else 0) + blendSwitchCount b.blend_mode bs

/-- The GL blend state agrees with a batch blend mode: disabled for `None`,
    enabled and set to the mode otherwise. -/
def blendStateMatches (s : GlState) : BlendMode → Bool
  | BlendMode.None => !s.blend
  | BlendMode.Alpha => s.blend && (s.blend_mode == BlendMode.Alpha)
  | BlendMode.PremultipliedAlpha =>
      s.blend && (s.blend_mode == BlendMode.PremultipliedAlpha)
  | BlendMode.Subpixel r g b a =>
      s.blend && (s.blend_mode == BlendMode.Subpixel r g b a)

/-- State discipline C4 requires at an opaque submission. -/
def opaqueSubmitOk (p : GlState × PrimitiveBatch) : Prop :=
  p.1.depth_test = true ∧ p.1.depth_write = true ∧
  p.1.depth_func = DepthFunction.LessEqual ∧ p.1.blend = false

/-- State discipline C4 requires at an alpha submission. -/
def alphaSubmitOk (p : GlState × PrimitiveBatch) : Prop :=
  p.1.depth_test = true ∧ p.1.depth_write = false ∧
  p.1.depth_func = DepthFunction.LessEqual ∧
  blendStateMatches p.1 p.2.blend_mode = true

theorem runGl_append (l1 l2 : List GlStateOp) : ∀ s,
    runGl s (l1 ++ l2) = runGl (runGl s l1) l2 := by
  induction l1 with
  | nil => intro s; rfl
  | cons op ops ih => intro s; rw [List.cons_append, runGl, runGl, ih]

theorem submitsWithState_append (l1 l2 : List GlStateOp) : ∀ s,
    submitsWithState s (l1 ++ l2) =
      submitsWithState s l1 ++ submitsWithState (runGl s l1) l2 := by
  induction l1 with
  | nil => intro s; rfl
  | cons op ops ih =>
      intro s
      rw [List.cons_append, submitsWithState, submitsWithState, runGl, ih,
        List.append_assoc]

theorem runGl_map_submit (L : List PrimitiveBatch) : ∀ s,
    runGl s (L.map GlStateOp.submit) = s := by
  induction L with
  | nil => intro s; rfl
  | cons b bs ih => intro s; rw [List.map_cons, runGl, stepGl, ih]

theorem submitsWithState_map_submit (L : List PrimitiveBatch) : ∀ s,
    submitsWithState s (L.map GlStateOp.submit) = L.map (fun b => (s, b)) := by
  induction L with
  | nil => intro s; rfl
  | cons b bs ih =>
      intro s
      rw [List.map_cons, submitsWithState]
      show [(s, b)] ++ submitsWithState s (bs.map GlStateOp.submit) = _
      rw [ih, List.map_cons]
      rfl

theorem filterMap_submittedBatch_map_submit (L : List PrimitiveBatch) :
    (L.map GlStateOp.submit).filterMap submittedBatch = L := by
  induction L with
  | nil => rfl
  | cons b bs ih => rw [List.map_cons, List.filterMap_cons, submittedBatch, ih]

theorem runGl_switchOps_matches (s : GlState) (m : BlendMode) :
    blendStateMatches (runGl s (switchOps m)) m = true := by
  cases m <;> simp [switchOps, runGl, stepGl, blendStateMatches]

theorem runGl_switchOps_depth (s : GlState) (m : BlendMode) :
    (runGl s (switchOps m)).depth_test = s.depth_test ∧
    (runGl s (switchOps m)).depth_write = s.depth_write ∧
    (runGl s (switchOps m)).depth_func = s.depth_func := by
  cases m <;> simp [switchOps, runGl, stepGl]

theorem submitsWithState_switchOps (s : GlState) (m : BlendMode) :
    submitsWithState s (switchOps m) = [] := by
  cases m <;> rfl

theorem filterMap_submittedBatch_switchOps (m : BlendMode) :
    (switchOps m).filterMap submittedBatch = [] := by
  cases m <;> rfl

theorem filter_isSetBlend_switchOps (m : BlendMode) :
    ((switchOps m).filter isSetBlend).length = 1 := by
  cases m <;> rfl

theorem alphaBatchLoop_spec (bs : List PrimitiveBatch) :
    ∀ (prev : BlendMode) (s : GlState),
    blendStateMatches s prev = true →
    s.depth_test = true → s.depth_write = false →
    s.depth_func = DepthFunction.LessEqual →
    ((alphaBatchLoop prev bs).filterMap submittedBatch = bs ∧
     (submitsWithState s (alphaBatchLoop prev bs)).map Prod.snd = bs ∧
     (∀ p ∈ submitsWithState s (alphaBatchLoop prev bs), alphaSubmitOk p) ∧
     ((alphaBatchLoop prev bs).filter isSetBlend).length = blendSwitchCount prev bs) := by
  induction bs with
  | nil =>
      intro prev s hm hdt hdw hdf
      refine ⟨rfl, rfl, ?_, rfl⟩
      intro p hp
      cases hp
  | cons b bs ih =>
      intro prev s hm hdt hdw hdf
      rw [alphaBatchLoop, blendSwitchCount]
      by_cases hne : b.blend_mode ≠ prev
      · rw [if_pos hne, if_pos hne]
        obtain ⟨hdt2, hdw2, hdf2⟩ := runGl_switchOps_depth s b.blend_mode
        have hm2 := runGl_switchOps_matches s b.blend_mode
        obtain ⟨ih1, ih2, ih3, ih4⟩ := ih b.blend_mode
          (runGl s (switchOps b.blend_mode)) hm2 (by rw [hdt2]; exact hdt)
          (by rw [hdw2]; exact hdw) (by rw [hdf2]; exact hdf)
        refine ⟨?_, ?_, ?_, ?_⟩
        · rw [List.filterMap_append, filterMap_submittedBatch_switchOps,
            List.nil_append, List.filterMap_cons]
          show b :: (alphaBatchLoop b.blend_mode bs).filterMap submittedBatch = _
          rw [ih1]
        · rw [submitsWithState_append, submitsWithState_switchOps, List.nil_append,
            submitsWithState]
          show ((runGl s (switchOps b.blend_mode), b) ::
            submitsWithState (runGl s (switchOps b.blend_mode))
              (alphaBatchLoop b.blend_mode bs)).map Prod.snd = _
          rw [List.map_cons, ih2]
        · rw [submitsWithState_append, submitsWithState_switchOps, List.nil_append,
            submitsWithState]
          intro p hp
          have hp2 : p = (runGl s (switchOps b.blend_mode), b) ∨
              p ∈ submitsWithState (runGl s (switchOps b.blend_mode))
                (alphaBatchLoop b.blend_mode bs) := List.mem_cons.mp hp
          rcases hp2 with rfl | hp2
          · exact ⟨by rw [hdt2]; exact hdt, by rw [hdw2]; exact hdw,
              by rw [hdf2]; exact hdf, hm2⟩
          · exact ih3 p hp2
        · rw [List.filter_append, List.length_append, filter_isSetBlend_switchOps,
            List.filter_cons]
          show 1 + ((alphaBatchLoop b.blend_mode bs).filter isSetBlend).length = _
          rw [ih4]
      · rw [if_neg hne, if_neg hne]
        have heq : b.blend_mode = prev := not_not.mp hne
        obtain ⟨ih1, ih2, ih3, ih4⟩ := ih b.blend_mode s (by rw [heq]; exact hm)
          hdt hdw hdf
        refine ⟨?_, ?_, ?_, ?_⟩
        · rw [List.nil_append, List.filterMap_cons]
          show b :: (alphaBatchLoop b.blend_mode bs).filterMap submittedBatch = _
          rw [ih1]
        · rw [List.nil_append, submitsWithState]
          show ((s, b) ::
            submitsWithState s (alphaBatchLoop b.blend_mode bs)).map Prod.snd = _
          rw [List.map_cons, ih2]
        · rw [List.nil_append, submitsWithState]
          intro p hp
          have hp2 : p = (s, b) ∨
              p ∈ submitsWithState s (alphaBatchLoop b.blend_mode bs) :=
            List.mem_cons.mp hp
          rcases hp2 with rfl | hp2
          · exact ⟨hdt, hdw, hdf, by rw [heq]; exact hm⟩
          · exact ih3 p hp2
        · rw [List.nil_append, List.filter_cons]
          show ((alphaBatchLoop b.blend_mode bs).filter isSetBlend).length =
            0 + blendSwitchCount b.blend_mode bs
          rw [Nat.zero_add, ih4]

theorem filter_isSetBlend_map_submit (L : List PrimitiveBatch) :
    (L.map GlStateOp.submit).filter isSetBlend = [] := by
  induction L with
  | nil => rfl
  | cons b bs ih => rw [List.map_cons, List.filter_cons]; exact ih

/-- The post-conditions claim C4 asserts about the alpha-batch phase of a
    color target with a non-empty alpha batcher, for an arbitrary incoming
    GL state `s0`: (1) the submitted batches are exactly the opaque list in
    reverse followed by the alpha list in order; (2) the same, read off with
    the GL state at each submission; (3) every opaque submission happens with
    depth test (less-equal) and depth write on and blend off; (4) every alpha
    submission happens with depth write off and the blend state matching that
    batch mode; (5) the number of `set_blend` calls is 2 (phase entry and
    exit) plus one per boundary where the mode differs from the previous
    batch — the mode is switched only when it changes; (6) after the last
    batch, depth and blend are disabled. -/
def C4Post (target : ColorRenderTarget) (s0 : GlState) : Prop :=
  (draw_color_target_alpha_phase target).filterMap submittedBatch =
      target.alpha_batcher.batch_list.opaque_batches.reverse ++
      target.alpha_batcher.batch_list.alpha_batches ∧
  (submitsWithState s0 (draw_color_target_alpha_phase target)).map Prod.snd =
      target.alpha_batcher.batch_list.opaque_batches.reverse ++
      target.alpha_batcher.batch_list.alpha_batches ∧
  (∀ p ∈ (submitsWithState s0 (draw_color_target_alpha_phase target)).take
      target.alpha_batcher.batch_list.opaque_batches.length, opaqueSubmitOk p) ∧
  (∀ p ∈ (submitsWithState s0 (draw_color_target_alpha_phase target)).drop
      target.alpha_batcher.batch_list.opaque_batches.length, alphaSubmitOk p) ∧
  ((draw_color_target_alpha_phase target).filter isSetBlend).length =
      2 + blendSwitchCount BlendMode.None
        target.alpha_batcher.batch_list.alpha_batches ∧
  (runGl s0 (draw_color_target_alpha_phase target)).depth_test = false ∧
  (runGl s0 (draw_color_target_alpha_phase target)).blend = false

/-- C4: in every color render target whose alpha batcher is non-empty, all
    opaque batches are submitted before any alpha batch; opaque batches go
    in reverse list order with depth test (less-equal) and depth write on
    and blend off; alpha batches go in list order with depth write off, the
    blend mode switched only when it differs from the previous batch; and
    after the last alpha batch depth and blend are disabled. -/
theorem C4_opaque_before_alpha (target : ColorRenderTarget) (s0 : GlState)
    (hne : target.alpha_batcher.is_empty = false) :
    C4Post target s0 := by
  obtain ⟨⟨⟨ob, ab⟩⟩⟩ := target
  have hphase : draw_color_target_alpha_phase ⟨⟨⟨ob, ab⟩⟩⟩ =
      GlStateOp.setBlend false ::
      GlStateOp.setDepthFunc DepthFunction.LessEqual ::
      GlStateOp.enableDepth ::
      GlStateOp.enableDepthWrite ::
      (ob.reverse.map GlStateOp.submit ++
       GlStateOp.disableDepthWrite ::
       (alphaBatchLoop BlendMode.None ab ++
        [GlStateOp.disableDepth, GlStateOp.setBlend false])) := by
    rw [draw_color_target_alpha_phase, if_neg]
    intro hcon
    rw [hne] at hcon
    cases hcon
  obtain ⟨hl1, hl2, hl3, hl4⟩ := alphaBatchLoop_spec ab BlendMode.None
    ⟨false, s0.blend_mode, true, false, DepthFunction.LessEqual⟩ rfl rfl rfl rfl
  have hsubs : submitsWithState s0 (draw_color_target_alpha_phase ⟨⟨⟨ob, ab⟩⟩⟩) =
      ob.reverse.map (fun b => ((⟨false, s0.blend_mode, true, true,
        DepthFunction.LessEqual⟩ : GlState), b)) ++
      submitsWithState ⟨false, s0.blend_mode, true, false, DepthFunction.LessEqual⟩
        (alphaBatchLoop BlendMode.None ab) := by
    rw [hphase]
    show submitsWithState ⟨false, s0.blend_mode, true, true, DepthFunction.LessEqual⟩
        (ob.reverse.map GlStateOp.submit ++
         GlStateOp.disableDepthWrite ::
         (alphaBatchLoop BlendMode.None ab ++
          [GlStateOp.disableDepth, GlStateOp.setBlend false])) = _
    rw [submitsWithState_append, submitsWithState_map_submit, runGl_map_submit]
    show _ ++ submitsWithState ⟨false, s0.blend_mode, true, false,
        DepthFunction.LessEqual⟩ (alphaBatchLoop BlendMode.None ab ++
        [GlStateOp.disableDepth, GlStateOp.setBlend false]) = _
    rw [submitsWithState_append]
    have htail : submitsWithState
        (runGl ⟨false, s0.blend_mode, true, false, DepthFunction.LessEqual⟩
          (alphaBatchLoop BlendMode.None ab))
        [GlStateOp.disableDepth, GlStateOp.setBlend false] = [] := rfl
    rw [htail, List.append_nil]
  have hlenA : (ob.reverse.map (fun b => ((⟨false, s0.blend_mode, true, true,
      DepthFunction.LessEqual⟩ : GlState), b))).length = ob.length := by
    rw [List.length_map, List.length_reverse]
  refine ⟨?_, ?_, ?_, ?_, ?_, ?_, ?_⟩
  · rw [hphase]
    show (ob.reverse.map GlStateOp.submit ++
      GlStateOp.disableDepthWrite ::
      (alphaBatchLoop BlendMode.None ab ++
       [GlStateOp.disableDepth, GlStateOp.setBlend false])).filterMap
        submittedBatch = _
    rw [List.filterMap_append, filterMap_submittedBatch_map_submit]
    show ob.reverse ++ (alphaBatchLoop BlendMode.None ab ++
      [GlStateOp.disableDepth, GlStateOp.setBlend false]).filterMap
        submittedBatch = _
    rw [List.filterMap_append, hl1]
    show ob.reverse ++ (ab ++ []) = _
    rw [List.append_nil]
  · rw [hsubs, List.map_append, hl2, List.map_map]
    show ob.reverse.map (fun b => b) ++ ab = ob.reverse ++ ab
    rw [List.map_id']
  · rw [hsubs, ← hlenA, List.take_left]
    intro p hp
    obtain ⟨x, hx, hpx⟩ := List.mem_map.mp hp
    subst hpx
    exact ⟨rfl, rfl, rfl, rfl⟩
  · rw [hsubs, ← hlenA, List.drop_left]
    exact hl3
  · rw [hphase]
    show (GlStateOp.setBlend false ::
      ((ob.reverse.map GlStateOp.submit ++
        GlStateOp.disableDepthWrite ::
        (alphaBatchLoop BlendMode.None ab ++
         [GlStateOp.disableDepth, GlStateOp.setBlend false])).filter
          isSetBlend)).length = _
    rw [List.filter_append, filter_isSetBlend_map_submit, List.nil_append]
    show (GlStateOp.setBlend false ::
      ((alphaBatchLoop BlendMode.None ab ++
        [GlStateOp.disableDepth, GlStateOp.setBlend false]).filter
          isSetBlend)).length = _
    rw [List.filter_append]
    have htail : ([GlStateOp.disableDepth, GlStateOp.setBlend false] :
        List GlStateOp).filter isSetBlend = [GlStateOp.setBlend false] := rfl
    rw [htail, List.length_cons, List.length_append, hl4]
    have hone : ([GlStateOp.setBlend false] : List GlStateOp).length = 1 := rfl
    rw [hone]
    show blendSwitchCount BlendMode.None ab + 1 + 1 =
      2 + blendSwitchCount BlendMode.None ab
    omega
  · rw [hphase]
    show (runGl ⟨false, s0.blend_mode, true, true, DepthFunction.LessEqual⟩
      (ob.reverse.map GlStateOp.submit ++
       GlStateOp.disableDepthWrite ::
       (alphaBatchLoop BlendMode.None ab ++
        [GlStateOp.disableDepth, GlStateOp.setBlend false]))).depth_test = false
    rw [runGl_append, runGl_map_submit]
    show (runGl ⟨false, s0.blend_mode, true, false, DepthFunction.LessEqual⟩
      (alphaBatchLoop BlendMode.None ab ++
       [GlStateOp.disableDepth, GlStateOp.setBlend false])).depth_test = false
    rw [runGl_append]
    rfl
  · rw [hphase]
    show (runGl ⟨false, s0.blend_mode, true, true, DepthFunction.LessEqual⟩
      (ob.reverse.map GlStateOp.submit ++
       GlStateOp.disableDepthWrite ::
       (alphaBatchLoop BlendMode.None ab ++
        [GlStateOp.disableDepth, GlStateOp.setBlend false]))).blend = false
    rw [runGl_append, runGl_map_submit]
    show (runGl ⟨false, s0.blend_mode, true, false, DepthFunction.LessEqual⟩
      (alphaBatchLoop BlendMode.None ab ++
       [GlStateOp.disableDepth, GlStateOp.setBlend false])).blend = false
    rw [runGl_append]
    rfl

/-- Witness for C4: two opaque batches and two alpha batches (the second
    alpha batch keeps the mode of the first, exercising the no-switch path),
    from an arbitrary concrete initial GL state. -/
theorem C4_opaque_before_alpha_witness :
    C4Post ⟨⟨⟨[⟨1, BlendMode.None⟩, ⟨2, BlendMode.None⟩],
      [⟨3, BlendMode.Alpha⟩, ⟨4, BlendMode.Alpha⟩]⟩⟩⟩
      ⟨true, BlendMode.PremultipliedAlpha, false, false, DepthFunction.Less⟩ :=
  C4_opaque_before_alpha
    ⟨⟨⟨[⟨1, BlendMode.None⟩, ⟨2, BlendMode.None⟩],
      [⟨3, BlendMode.Alpha⟩, ⟨4, BlendMode.Alpha⟩]⟩⟩⟩
    ⟨true, BlendMode.PremultipliedAlpha, false, false, DepthFunction.Less⟩
    (by rfl)

/-! ### Claim C5 -/

/-- An integer device rectangle (`DeviceIntRect`): origin `(x, y)` and size
    `(w, h)`. -/
structure DeviceIntRect where
  x : Int
  y : Int
  w : Int
  h : Int
deriving DecidableEq

/-- render_task.rs `RenderTaskData`: the flat per-task float array the
    composite path indexes (`data[0], data[1], data[4], data[5], ...`).
    Cells are carried as `Int`s; the source casts them with `as i32` before
    building rectangles, and the composite readback path only adds and
    subtracts them. -/
structure RenderTaskData where
  data : List Int
deriving DecidableEq

/-- renderer.rs lines 1876-1909, the readback/blit rectangle computation in
    `Renderer::submit_batch` for an `AlphaBatchKind::Composite` batch.
    `backdrop`, `readback` and `source` are the three `RenderTaskData` rows
    the instance points at (bound to the same local names as the source);
    `render_target` is the current pass target, `none` meaning the default
    framebuffer.  Returns the final (src, dest) rectangles passed to
    `blit_render_target`. -/
def composite_blit_rects (backdrop readback source : RenderTaskData)
    (render_target : Option Nat) (target_height : Int) :
    DeviceIntRect × DeviceIntRect :=
  let src_x := backdrop.data.getD 0 0 - backdrop.data.getD 4 0 + source.data.getD 4 0
  let src_y := backdrop.data.getD 1 0 - backdrop.data.getD 5 0 + source.data.getD 5 0
  let dest_x := readback.data.getD 0 0
  let dest_y := readback.data.getD 1 0
  let width := readback.data.getD 2 0
  let height := readback.data.getD 3 0
  let src : DeviceIntRect := ⟨src_x, src_y, width, height⟩
  let dest : DeviceIntRect := ⟨dest_x, dest_y, width, height⟩
  if render_target = none then
    ({ src with y := target_height - src.h - src.y },
     { dest with y := dest.y + dest.h, h := -dest.h })
  else
    (src, dest)

/-- C5: for a composite blit targeting the default framebuffer
    (`render_target = none`), the source rectangle y origin becomes
    `target_height − height − original_src_y` (x and size unchanged) and the
    destination rectangle is flipped vertically (`y` increased by the height,
    height negated); for an intermediate render target both rectangles are
    used unchanged. -/
theorem C5_composite_y_flip (backdrop readback source : RenderTaskData)
    (render_target : Option Nat) (target_height : Int) :
    composite_blit_rects backdrop readback source render_target target_height =
      if render_target = none then
        (⟨backdrop.data.getD 0 0 - backdrop.data.getD 4 0 + source.data.getD 4 0,
          target_height - readback.data.getD 3 0 -
            (backdrop.data.getD 1 0 - backdrop.data.getD 5 0 +
             source.data.getD 5 0),
          readback.data.getD 2 0, readback.data.getD 3 0⟩,
         ⟨readback.data.getD 0 0,
          readback.data.getD 1 0 + readback.data.getD 3 0,
          readback.data.getD 2 0, -readback.data.getD 3 0⟩)
      else
        (⟨backdrop.data.getD 0 0 - backdrop.data.getD 4 0 + source.data.getD 4 0,
          backdrop.data.getD 1 0 - backdrop.data.getD 5 0 + source.data.getD 5 0,
          readback.data.getD 2 0, readback.data.getD 3 0⟩,
         ⟨readback.data.getD 0 0, readback.data.getD 1 0,
          readback.data.getD 2 0, readback.data.getD 3 0⟩) := by
  rw [composite_blit_rects]

/-! ### Claim C6 -/

namespace VertexDataTextureLayout

/-- renderer.rs line 466: the vertex-data layout stores RGBA-F32. -/
def image_format : ImageFormat := ImageFormat.RGBAF32

/-- renderer.rs line 474. -/
def texture_filter : TextureFilter := TextureFilter.Nearest

/-- `GpuStoreLayout::texel_size` for RGBA-F32 (renderer.rs 389-395): 16
    bytes. -/
def texel_size : Nat := 16

/-- `GpuStoreLayout::texels_per_item::<T>()` (renderer.rs 397-402),
    parameterized by `item_size = mem::size_of::<T>()`.  The source
    `debug_assert!(item_size % texel_size == 0)`. -/
def texels_per_item (item_size : Nat) : Nat := item_size / texel_size

/-- renderer.rs 470-472: `W - (W % texels_per_item)`. -/
def texture_width (item_size : Nat) : Nat :=
  MAX_VERTEX_TEXTURE_WIDTH - MAX_VERTEX_TEXTURE_WIDTH % texels_per_item item_size

/-- renderer.rs 404-406. -/
def items_per_row (item_size : Nat) : Nat :=
  texture_width item_size / texels_per_item item_size

/-- renderer.rs 408-410. -/
def rows_per_item (item_size : Nat) : Nat :=
  texels_per_item item_size / texture_width item_size

end VertexDataTextureLayout

/-- The arguments of the `device.init_texture` call `GpuDataTexture::init`
    issues (renderer.rs 453-459). -/
structure InitTextureCall (α : Type) where
  width : Nat
  height : Nat
  format : ImageFormat
  filter : TextureFilter
  pixels : List α
deriving DecidableEq

/-- The `while data.len() % items_per_row != 0 { data.push(T::default()) }`
    loop of `GpuDataTexture::init` (renderer.rs 441-445); the number of
    pushes is determined at entry (distance to the next multiple), making
    the recursion structural. -/
def padItems {α : Type} (d : α) : Nat → List α → List α
  | 0, data => data
  | n + 1, data => padItems d n (data ++ [d])

/-- Number of items the padding while-loop appends: the distance from `len`
    up to the next multiple of `ipr`. -/
def padCount (ipr len : Nat) : Nat := (ipr - len % ipr) % ipr

/-- renderer.rs lines 428-460 `GpuDataTexture::init`, parameterized by the
    record byte size (`mem::size_of::<T>()`).  No-op on empty input; else
    pads the caller vector to a row multiple and issues one `init_texture`
    upload of the whole padded vector.  Returns the final vector and the
    call, if any. -/
def GpuDataTexture.init {α : Type} (item_size : Nat) (d : α) (data : List α) :
    List α × Option (InitTextureCall α) :=
  if data.isEmpty then (data, none)
  else if VertexDataTextureLayout.items_per_row item_size ≠ 0 then
    (padItems d (padCount (VertexDataTextureLayout.items_per_row item_size)
        data.length) data,
     some ⟨VertexDataTextureLayout.texture_width item_size,
       (padItems d (padCount (VertexDataTextureLayout.items_per_row item_size)
           data.length) data).length /
         VertexDataTextureLayout.items_per_row item_size,
       VertexDataTextureLayout.image_format,
       VertexDataTextureLayout.texture_filter,
       padItems d (padCount (VertexDataTextureLayout.items_per_row item_size)
         data.length) data⟩)
  else
    (data,
     some ⟨VertexDataTextureLayout.texture_width item_size,
       data.length * VertexDataTextureLayout.rows_per_item item_size,
       VertexDataTextureLayout.image_format,
       VertexDataTextureLayout.texture_filter, data⟩)

theorem padItems_eq {α : Type} (d : α) (n : Nat) : ∀ data : List α,
    padItems d n data = data ++ List.replicate n d := by
  induction n with
  | zero => intro data; simp [padItems]
  | succ n ih =>
      intro data
      rw [padItems, ih, List.append_assoc, List.singleton_append,
        ← List.replicate_succ]

theorem padCount_mod (ipr len : Nat) (h : 0 < ipr) :
    (len + padCount ipr len) % ipr = 0 := by
  rw [padCount]
  rcases Nat.eq_zero_or_pos (len % ipr) with h0 | h0
  · rw [h0, Nat.sub_zero, Nat.mod_self, Nat.add_zero]
    exact h0
  · have hr := Nat.mod_lt len h
    have hlt : ipr - len % ipr < ipr := by omega
    rw [Nat.mod_eq_of_lt hlt]
    have hdm := Nat.div_add_mod len ipr
    have hmul : ipr * (len / ipr + 1) = ipr * (len / ipr) + ipr := by ring
    have hL : len + (ipr - len % ipr) = ipr * (len / ipr + 1) := by omega
    rw [hL, Nat.mul_mod_right]

theorem padded_div (ipr len : Nat) (h : 0 < ipr) :
    (len + padCount ipr len) / ipr = (len + ipr - 1) / ipr := by
  have hdm := Nat.div_add_mod len ipr
  have hr := Nat.mod_lt len h
  rw [padCount]
  rcases Nat.eq_zero_or_pos (len % ipr) with h0 | h0
  · rw [h0, Nat.sub_zero, Nat.mod_self, Nat.add_zero]
    have hq : len + ipr - 1 = (ipr - 1) + ipr * (len / ipr) := by omega
    have h1 : (ipr - 1) / ipr = 0 := Nat.div_eq_of_lt (by omega)
    rw [hq, Nat.add_mul_div_left _ _ h, h1, Nat.zero_add]
  · have hlt : ipr - len % ipr < ipr := by omega
    rw [Nat.mod_eq_of_lt hlt]
    have hmul : ipr * (len / ipr + 1) = ipr * (len / ipr) + ipr := by ring
    have hL : len + (ipr - len % ipr) = ipr * (len / ipr + 1) := by omega
    have hR : len + ipr - 1 = (len % ipr - 1) + ipr * (len / ipr + 1) := by omega
    have h1 : (len % ipr - 1) / ipr = 0 := Nat.div_eq_of_lt (by omega)
    rw [hL, hR, Nat.mul_div_cancel_left _ h, Nat.add_mul_div_left _ _ h, h1,
      Nat.zero_add]

/-- What claim C6 asserts of `init` for a record of `t = item_size/16`
    texels: no-op on empty input; otherwise one RGBA-F32 nearest upload of
    width `1024 - 1024 % t` and height `ceil(len / items_per_row)`, the
    uploaded vector being the input zero-padded to exactly
    `items_per_row × height` records; and `items_per_row × t` texels fill
    the row width exactly, so no record straddles a row boundary. -/
def C6Post {α : Type} (item_size : Nat) (d : α) (data : List α) : Prop :=
  (data = [] → GpuDataTexture.init item_size d data = (data, none)) ∧
  (data ≠ [] →
    GpuDataTexture.init item_size d data =
      (data ++ List.replicate
        (padCount (VertexDataTextureLayout.items_per_row item_size) data.length) d,
       some ⟨VertexDataTextureLayout.texture_width item_size,
         (data.length + VertexDataTextureLayout.items_per_row item_size - 1) /
           VertexDataTextureLayout.items_per_row item_size,
         ImageFormat.RGBAF32, TextureFilter.Nearest,
         data ++ List.replicate
           (padCount (VertexDataTextureLayout.items_per_row item_size)
             data.length) d⟩) ∧
    VertexDataTextureLayout.items_per_row item_size *
        VertexDataTextureLayout.texels_per_item item_size =
      VertexDataTextureLayout.texture_width item_size ∧
    (data ++ List.replicate
        (padCount (VertexDataTextureLayout.items_per_row item_size)
          data.length) d).length =
      VertexDataTextureLayout.items_per_row item_size *
        ((data.length + VertexDataTextureLayout.items_per_row item_size - 1) /
          VertexDataTextureLayout.items_per_row item_size))

/-- C6: `init(data)` is a no-op on empty input; otherwise it zero-pads
    `data` to a multiple of `items_per_row` and uploads an RGBA-F32
    nearest-filtered texture of width 1024 rounded down to a multiple of the
    record texel count and height `ceil(original_len / items_per_row)`; the
    uploaded length is `items_per_row × height` records and no record
    straddles a row boundary. -/
theorem C6_vertex_data_texture_init {α : Type} (item_size : Nat) (d : α)
    (data : List α)
    (hdvd : item_size % VertexDataTextureLayout.texel_size = 0)
    (hpos : 0 < VertexDataTextureLayout.texels_per_item item_size)
    (hle : VertexDataTextureLayout.texels_per_item item_size ≤
      MAX_VERTEX_TEXTURE_WIDTH) :
    C6Post item_size d data := by
  have hdm := Nat.div_add_mod MAX_VERTEX_TEXTURE_WIDTH
    (VertexDataTextureLayout.texels_per_item item_size)
  have hwidth : VertexDataTextureLayout.texture_width item_size =
      VertexDataTextureLayout.texels_per_item item_size *
        (MAX_VERTEX_TEXTURE_WIDTH /
          VertexDataTextureLayout.texels_per_item item_size) := by
    rw [VertexDataTextureLayout.texture_width]
    omega
  have hipr : VertexDataTextureLayout.items_per_row item_size =
      MAX_VERTEX_TEXTURE_WIDTH /
        VertexDataTextureLayout.texels_per_item item_size := by
    rw [VertexDataTextureLayout.items_per_row, hwidth,
      Nat.mul_div_cancel_left _ hpos]
  have hiprpos : 0 < VertexDataTextureLayout.items_per_row item_size := by
    rw [hipr]
    exact Nat.div_pos hle hpos
  constructor
  · intro hd
    subst hd
    rfl
  · intro hd
    have hne : data.isEmpty = false := by
      cases data with
      | nil => exact absurd rfl hd
      | cons a l => rfl
    refine ⟨?_, ?_, ?_⟩
    · rw [GpuDataTexture.init, if_neg (by rw [hne]; exact Bool.false_ne_true),
        if_pos (by omega), padItems_eq, List.length_append,
        List.length_replicate, padded_div _ _ hiprpos]
      rfl
    · rw [hipr, hwidth, Nat.mul_comm]
    · rw [List.length_append, List.length_replicate]
      have hmod := padCount_mod (VertexDataTextureLayout.items_per_row item_size)
        data.length hiprpos
      have hdm2 := Nat.div_add_mod
        (data.length + padCount (VertexDataTextureLayout.items_per_row item_size)
           data.length)
        (VertexDataTextureLayout.items_per_row item_size)
      rw [← padded_div _ _ hiprpos]
      omega

/-- Witness for C6: three 32-byte records (2 texels each), so
    `items_per_row = 512` and the vector is padded with 509 defaults. -/
theorem C6_vertex_data_texture_init_witness :
    C6Post 32 (0 : Nat) [10, 20, 30] :=
  C6_vertex_data_texture_init 32 0 [10, 20, 30] (by decide) (by decide)
    (by decide)

/-! ### Claim C7 -/

/-- A deferred resolve entry as read by `update_deferred_resolves`
    (renderer.rs 2184-2214): external image id and channel index.  (The UV
    patch it also applies goes to the GPU cache through `apply_patch` and
    does not touch the external-image map.) -/
structure DeferredResolve where
  ext_id : Nat
  channel : Nat
deriving DecidableEq

/-- Calls made on the external image handler. -/
inductive HandlerEvent where
  | lock (id channel : Nat)
  | unlock (id channel : Nat)
deriving DecidableEq

/-- `self.external_images` is a `HashMap` keyed by `(id, channel_index)`
    (renderer.rs line 2205 `insert`); modelled as a duplicate-free key list
    where inserting an existing key is a no-op (the claim is about keys, not
    the texture values). -/
def insertKey (k : Nat × Nat) (m : List (Nat × Nat)) : List (Nat × Nat) :=
  if k ∈ m then m else m ++ [k]

/-- renderer.rs 2174-2216 `update_deferred_resolves`, restricted to its
    effect on the external-image map and the handler: each entry locks its
    image and records its key in the map. -/
def update_deferred_resolves (ext : List (Nat × Nat)) :
    List DeferredResolve → List (Nat × Nat) × List HandlerEvent
  | [] => (ext, [])
  | r :: rs =>
      ((update_deferred_resolves (insertKey (r.ext_id, r.channel) ext) rs).1,
       HandlerEvent.lock r.ext_id r.channel ::
         (update_deferred_resolves (insertKey (r.ext_id, r.channel) ext) rs).2)

/-- renderer.rs 2218-2228 `unlock_external_images`: drain the map, calling
    `unlock` for every entry.  (The `is_empty` guard in the source only
    skips work; the result on an empty map is identical.) -/
def unlock_external_images (ext : List (Nat × Nat)) :
    List (Nat × Nat) × List HandlerEvent :=
  ([], ext.map (fun k => HandlerEvent.unlock k.1 k.2))

/-- The slice of a frame the external-image protocol reads. -/
structure FrameModel where
  deferred_resolves : List DeferredResolve
  passes_is_empty : Bool

/-- renderer.rs 2290-2387 `draw_tile_frame`, restricted to the
    external-image protocol: whether the pass list is empty (only a clear
    happens) or not (the passes are drawn), the function falls through to
    `unlock_external_images`; pass drawing makes no handler calls. -/
def draw_tile_frame (ext : List (Nat × Nat)) (frame : FrameModel) :
    List (Nat × Nat) × List HandlerEvent :=
  if frame.passes_is_empty then unlock_external_images ext
  else unlock_external_images ext

/-- renderer.rs 1485-1574 `Renderer::render`, restricted to the
    external-image protocol.  With no staged frame (the cancelled-frame
    path) the call does nothing; otherwise `update_gpu_cache` runs the
    deferred resolves (locks) and `draw_tile_frame` ends by unlocking and
    clearing the map. -/
def Renderer.render (ext : List (Nat × Nat))
    (current_frame : Option FrameModel) :
    List (Nat × Nat) × List HandlerEvent :=
  match current_frame with
  | none => (ext, [])
  | some frame =>
      ((draw_tile_frame
          (update_deferred_resolves ext frame.deferred_resolves).1 frame).1,
       (update_deferred_resolves ext frame.deferred_resolves).2 ++
         (draw_tile_frame
           (update_deferred_resolves ext frame.deferred_resolves).1 frame).2)

theorem mem_insertKey (k k2 : Nat × Nat) (m : List (Nat × Nat)) (h : k ∈ m) :
    k ∈ insertKey k2 m := by
  rw [insertKey]
  split
  · exact h
  · exact List.mem_append_left _ h

theorem insertKey_self (k : Nat × Nat) (m : List (Nat × Nat)) :
    k ∈ insertKey k m := by
  rw [insertKey]
  split
  · assumption
  · exact List.mem_append_right _ (List.mem_singleton.mpr rfl)

/-- The external-image map only grows during the deferred resolves. -/
theorem udr_mono (rs : List DeferredResolve) : ∀ (ext : List (Nat × Nat)) k,
    k ∈ ext → k ∈ (update_deferred_resolves ext rs).1 := by
  induction rs with
  | nil => intro ext k h; exact h
  | cons r rs ih =>
      intro ext k h
      rw [update_deferred_resolves]
      exact ih _ k (mem_insertKey k _ ext h)

/-- Every image locked during the deferred resolves is in the final map. -/
theorem udr_lock_mem (rs : List DeferredResolve) :
    ∀ (ext : List (Nat × Nat)) (id ch : Nat),
    HandlerEvent.lock id ch ∈ (update_deferred_resolves ext rs).2 →
    (id, ch) ∈ (update_deferred_resolves ext rs).1 := by
  induction rs with
  | nil =>
      intro ext id ch h
      cases h
  | cons r rs ih =>
      intro ext id ch h
      rw [update_deferred_resolves] at h ⊢
      rcases List.mem_cons.mp h with heq | hmem
      · injection heq with h1 h2
        subst h1
        subst h2
        exact udr_mono rs _ _ (insertKey_self _ _)
      · exact ih _ id ch hmem

/-- What claim C7 asserts of one `render()` call starting (per the
    session invariant) with an empty external-image map: the map is empty
    again at the end, and every image locked during the call has received a
    matching unlock, on every path (no frame, empty passes, normal). -/
def C7Post (frame : Option FrameModel) : Prop :=
  (Renderer.render [] frame).1 = [] ∧
  ∀ id ch, HandlerEvent.lock id ch ∈ (Renderer.render [] frame).2 →
    HandlerEvent.unlock id ch ∈ (Renderer.render [] frame).2

/-- C7: at the end of every `render()` call the external-images map is
    empty, and every external image locked during the frame has received a
    matching unlock on the handler, on every exit path including the
    empty-pass and cancelled-frame paths. -/
theorem C7_unlock_completeness (frame : Option FrameModel) : C7Post frame := by
  cases frame with
  | none =>
      refine ⟨rfl, fun id ch h => ?_⟩
      cases h
  | some f =>
      constructor
      · rw [Renderer.render, draw_tile_frame]
        split
        · rfl
        · rfl
      · intro id ch h
        rw [Renderer.render] at h ⊢
        have hdtf : (draw_tile_frame
            (update_deferred_resolves [] f.deferred_resolves).1 f).2 =
            (update_deferred_resolves [] f.deferred_resolves).1.map
              (fun k => HandlerEvent.unlock k.1 k.2) := by
          rw [draw_tile_frame]
          split
          · rfl
          · rfl
        rw [hdtf] at h ⊢
        rcases List.mem_append.mp h with hmem | hmem
        · refine List.mem_append_right _ ?_
          have hkey := udr_lock_mem f.deferred_resolves [] id ch hmem
          exact List.mem_map_of_mem _ hkey
        · exfalso
          obtain ⟨k, hk, hfk⟩ := List.mem_map.mp hmem
          cases hfk

/-! ### Claim C8 -/

/-- device.rs line 398 `TextureId { name, target }` (`target` carries the GL
    texture target enum value). -/
structure TextureId where
  name : Nat
  target : Nat
deriving DecidableEq

/-- device.rs 264-269 `TextureId::invalid()`: name 0, target
    `gl::TEXTURE_2D` (0x0DE1 = 3553). -/
def TextureId.invalid : TextureId := ⟨0, 3553⟩

/-- `gl::PIXEL_UNPACK_BUFFER` (0x88EC = 35052). -/
def GL_PIXEL_UNPACK_BUFFER : Nat := 35052

/-- Raw GL calls issued by the device bind operations. -/
inductive GlCall where
  | activeTexture (unit : Nat)
  | bindTexture (target name : Nat)
  | useProgram (id : Nat)
  | bindVertexArray (id : Nat)
  | bindBuffer (target id : Nat)
  | bindFramebuffer (read : Bool) (id : Nat)
  | viewport (w h : Nat)
deriving DecidableEq

/-- The underlying GL *bind* calls counted by claim C8 (`active_texture` and
    `viewport` are not binds). -/
def isBindCall : GlCall → Bool
  | GlCall.bindTexture _ _ => true
  | GlCall.useProgram _ => true
  | GlCall.bindVertexArray _ => true
  | GlCall.bindBuffer _ _ => true
  | GlCall.bindFramebuffer _ _ => true
  | _ => false

def countBinds (calls : List GlCall) : Nat := (calls.filter isBindCall).length

/-- The slice of device.rs `Texture` used by the framebuffer bind paths:
    the per-layer FBO handles (`fbo_ids`). -/
structure TextureRecord where
  fbo_ids : List Nat
deriving DecidableEq

/-- The binding-state cache of device.rs `Device` (fields at lines 770-795):
    `bound_textures` (16 sampler slots), `bound_program`, `bound_vao`,
    `bound_pbo`, `bound_read_fbo`, `bound_draw_fbo`, the default
    framebuffers recorded by `begin_frame`, and the texture table used to
    resolve `(texture, layer)` to an FBO handle.  The
    `debug_assert!(self.inside_frame)` at the head of each bind is compiled
    out in release builds and not part of the bind semantics (claim C10
    covers the assertion discipline). -/
structure DeviceState where
  bound_textures : List TextureId
  bound_program : Nat
  bound_vao : Nat
  bound_pbo : Nat
  bound_read_fbo : Nat
  bound_draw_fbo : Nat
  default_read_fbo : Nat
  default_draw_fbo : Nat
  textures : List (TextureId × TextureRecord)
deriving DecidableEq

/-- device.rs 945-957 `Device::bind_texture`: guarded on the cached slot;
    on a real bind the unit is selected, the texture bound, and the active
    unit restored to 0.  (`bound_textures[sampler]` is a fixed 16-slot
    array indexed by the `TextureSampler` enum, so the index is always in
    range; `getD` stands for that indexing.) -/
def Device.bind_texture (self : DeviceState) (sampler : Nat)
    (texture_id : TextureId) : DeviceState × List GlCall :=
  if self.bound_textures.getD sampler TextureId.invalid ≠ texture_id then
    ({ self with bound_textures := self.bound_textures.set sampler texture_id },
     [GlCall.activeTexture sampler,
      GlCall.bindTexture texture_id.target texture_id.name,
      GlCall.activeTexture 0])
  else (self, [])

/-- device.rs 991-998 `Device::bind_program`. -/
def Device.bind_program (self : DeviceState) (pid : Nat) :
    DeviceState × List GlCall :=
  if self.bound_program ≠ pid then
    ({ self with bound_program := pid }, [GlCall.useProgram pid])
  else (self, [])

/-- device.rs 1695-1704 `Device::bind_vao`. -/
def Device.bind_vao (self : DeviceState) (vao_id : Nat) :
    DeviceState × List GlCall :=
  if self.bound_vao ≠ vao_id then
    ({ self with bound_vao := vao_id }, [GlCall.bindVertexArray vao_id])
  else (self, [])

/-- device.rs 1576-1585 `Device::bind_pbo`: `None` stands for PBOId(0). -/
def Device.bind_pbo (self : DeviceState) (pbo_id : Option Nat) :
    DeviceState × List GlCall :=
  if self.bound_pbo ≠ pbo_id.getD 0 then
    ({ self with bound_pbo := pbo_id.getD 0 },
     [GlCall.bindBuffer GL_PIXEL_UNPACK_BUFFER (pbo_id.getD 0)])
  else (self, [])

/-- `self.textures.get(&texture_id)` (a HashMap lookup) as an association
    list search. -/
def lookupTexture (textures : List (TextureId × TextureRecord))
    (tid : TextureId) : Option TextureRecord :=
  (textures.find? (fun p => p.1 == tid)).map Prod.snd

/-- The FBO handle a read/draw target resolves to (device.rs 962-964 and
    977-979): the recorded default framebuffer for `None`, else
    `textures[id].fbo_ids[layer]`; the `unwrap` and the indexing panic when
    missing, modelled by `none`. -/
def fboForTarget (dflt : Nat) (textures : List (TextureId × TextureRecord))
    (texture_id : Option (TextureId × Nat)) : Option Nat :=
  match texture_id with
  | none => some dflt
  | some (tid, layer) =>
      match lookupTexture textures tid with
      | none => none
      | some t => t.fbo_ids[layer]?

/-- device.rs 959-970 `Device::bind_read_target`. -/
def Device.bind_read_target (self : DeviceState)
    (texture_id : Option (TextureId × Nat)) :
    Option (DeviceState × List GlCall) :=
  match fboForTarget self.default_read_fbo self.textures texture_id with
  | none => none
  | some fbo_id =>
      if self.bound_read_fbo ≠ fbo_id then
        some ({ self with bound_read_fbo := fbo_id },
          [GlCall.bindFramebuffer true fbo_id])
      else some (self, [])

/-- device.rs 972-989 `Device::bind_draw_target`: the framebuffer bind is
    guarded, the viewport call (when dimensions are supplied) is not. -/
def Device.bind_draw_target (self : DeviceState)
    (texture_id : Option (TextureId × Nat)) (dimensions : Option (Nat × Nat)) :
    Option (DeviceState × List GlCall) :=
  match fboForTarget self.default_draw_fbo self.textures texture_id with
  | none => none
  | some fbo_id =>
      match dimensions with
      | some d =>
          if self.bound_draw_fbo ≠ fbo_id then
            some ({ self with bound_draw_fbo := fbo_id },
              [GlCall.bindFramebuffer false fbo_id, GlCall.viewport d.1 d.2])
          else some (self, [GlCall.viewport d.1 d.2])
      | none =>
          if self.bound_draw_fbo ≠ fbo_id then
            some ({ self with bound_draw_fbo := fbo_id },
              [GlCall.bindFramebuffer false fbo_id])
          else some (self, [])

theorem getD_set_eq {α : Type} (l : List α) (n : Nat) (a d : α)
    (h : n < l.length) : (l.set n a).getD n d = a := by
  rw [List.getD_eq_getElem?_getD, List.getElem?_set_eq_of_lt a h]
  rfl

/-- Counterexample to C8 as stated: binding the VAO that is already bound,
    twice, issues zero underlying GL bind calls — not exactly one.  (After
    `begin_frame` the cached VAO is id 0, so even from the canonical reset
    state the handle 0 exhibits this.) -/
theorem C8_counterexample :
    ¬ (∀ (s : DeviceState) (v : Nat),
        countBinds (Device.bind_vao s v).2 +
          countBinds (Device.bind_vao (Device.bind_vao s v).1 v).2 = 1) := by
  intro h
  have h5 := h ⟨[], 0, 5, 0, 0, 0, 0, 0, []⟩ 5
  rw [Device.bind_vao, if_neg (by simp)] at h5
  rw [Device.bind_vao, if_neg (by simp)] at h5
  cases h5

/-- The viewport call `bind_draw_target` issues regardless of the cache. -/
def viewportCalls : Option (Nat × Nat) → List GlCall
  | some d => [GlCall.viewport d.1 d.2]
  | none => []

theorem bind_texture_spec (s : DeviceState) (sampler : Nat) (tid : TextureId)
    (hs : sampler < s.bound_textures.length) :
    ∀ s1 e1, Device.bind_texture s sampler tid = (s1, e1) →
      Device.bind_texture s1 sampler tid = (s1, []) ∧ countBinds e1 ≤ 1 ∧
      (countBinds e1 = 0 ↔
        s.bound_textures.getD sampler TextureId.invalid = tid) := by
  intro s1 e1 h
  rw [Device.bind_texture] at h
  by_cases hc : s.bound_textures.getD sampler TextureId.invalid = tid
  · rw [if_neg (not_not_intro hc)] at h
    injection h with hA hB
    subst hA
    subst hB
    refine ⟨?_, Nat.zero_le 1, iff_of_true rfl hc⟩
    rw [Device.bind_texture, if_neg (not_not_intro hc)]
  · rw [if_pos hc] at h
    injection h with hA hB
    subst hA
    subst hB
    have hc2 : (s.bound_textures.set sampler tid).getD sampler
        TextureId.invalid = tid := getD_set_eq _ _ _ _ hs
    refine ⟨?_, Nat.le_refl 1, iff_of_false (fun h0 => Nat.one_ne_zero h0) hc⟩
    rw [Device.bind_texture, if_neg (not_not_intro hc2)]

theorem bind_program_spec (s : DeviceState) (pid : Nat) :
    ∀ s1 e1, Device.bind_program s pid = (s1, e1) →
      Device.bind_program s1 pid = (s1, []) ∧ countBinds e1 ≤ 1 ∧
      (countBinds e1 = 0 ↔ s.bound_program = pid) := by
  intro s1 e1 h
  rw [Device.bind_program] at h
  by_cases hc : s.bound_program = pid
  · rw [if_neg (not_not_intro hc)] at h
    injection h with hA hB
    subst hA
    subst hB
    refine ⟨?_, Nat.zero_le 1, iff_of_true rfl hc⟩
    rw [Device.bind_program, if_neg (not_not_intro hc)]
  · rw [if_pos hc] at h
    injection h with hA hB
    subst hA
    subst hB
    refine ⟨?_, Nat.le_refl 1, iff_of_false (fun h0 => Nat.one_ne_zero h0) hc⟩
    rw [Device.bind_program, if_neg (not_not_intro rfl)]

theorem bind_vao_spec (s : DeviceState) (vid : Nat) :
    ∀ s1 e1, Device.bind_vao s vid = (s1, e1) →
      Device.bind_vao s1 vid = (s1, []) ∧ countBinds e1 ≤ 1 ∧
      (countBinds e1 = 0 ↔ s.bound_vao = vid) := by
  intro s1 e1 h
  rw [Device.bind_vao] at h
  by_cases hc : s.bound_vao = vid
  · rw [if_neg (not_not_intro hc)] at h
    injection h with hA hB
    subst hA
    subst hB
    refine ⟨?_, Nat.zero_le 1, iff_of_true rfl hc⟩
    rw [Device.bind_vao, if_neg (not_not_intro hc)]
  · rw [if_pos hc] at h
    injection h with hA hB
    subst hA
    subst hB
    refine ⟨?_, Nat.le_refl 1, iff_of_false (fun h0 => Nat.one_ne_zero h0) hc⟩
    rw [Device.bind_vao, if_neg (not_not_intro rfl)]

theorem bind_pbo_spec (s : DeviceState) (pbo : Option Nat) :
    ∀ s1 e1, Device.bind_pbo s pbo = (s1, e1) →
      Device.bind_pbo s1 pbo = (s1, []) ∧ countBinds e1 ≤ 1 ∧
      (countBinds e1 = 0 ↔ s.bound_pbo = pbo.getD 0) := by
  intro s1 e1 h
  rw [Device.bind_pbo] at h
  by_cases hc : s.bound_pbo = pbo.getD 0
  · rw [if_neg (not_not_intro hc)] at h
    injection h with hA hB
    subst hA
    subst hB
    refine ⟨?_, Nat.zero_le 1, iff_of_true rfl hc⟩
    rw [Device.bind_pbo, if_neg (not_not_intro hc)]
  · rw [if_pos hc] at h
    injection h with hA hB
    subst hA
    subst hB
    refine ⟨?_, Nat.le_refl 1, iff_of_false (fun h0 => Nat.one_ne_zero h0) hc⟩
    rw [Device.bind_pbo, if_neg (not_not_intro rfl)]

theorem bind_read_target_spec (s : DeviceState) (rt : Option (TextureId × Nat))
    (s1 : DeviceState) (e1 : List GlCall)
    (h : Device.bind_read_target s rt = some (s1, e1)) :
    Device.bind_read_target s1 rt = some (s1, []) ∧ countBinds e1 ≤ 1 := by
  obtain ⟨bt, bp, bv, bb, brf, bdf, drf, ddf, tx⟩ := s
  simp only [Device.bind_read_target] at h ⊢
  cases hfbo : fboForTarget drf tx rt with
  | none =>
      simp only [hfbo] at h
      exact Option.noConfusion h
  | some fbo =>
      simp only [hfbo] at h
      by_cases hb : brf ≠ fbo
      · rw [if_pos hb] at h
        injection h with h2
        injection h2 with hA hB
        subst hA
        subst hB
        simp only [hfbo]
        rw [if_neg (not_not_intro rfl)]
        exact ⟨rfl, Nat.le_refl 1⟩
      · rw [if_neg hb] at h
        injection h with h2
        injection h2 with hA hB
        subst hA
        subst hB
        simp only [hfbo]
        rw [if_neg hb]
        exact ⟨rfl, Nat.zero_le 1⟩

theorem bind_draw_target_spec (s : DeviceState) (dt : Option (TextureId × Nat))
    (dims : Option (Nat × Nat)) (s1 : DeviceState) (e1 : List GlCall)
    (h : Device.bind_draw_target s dt dims = some (s1, e1)) :
    Device.bind_draw_target s1 dt dims = some (s1, viewportCalls dims) ∧
    countBinds (viewportCalls dims) = 0 ∧ countBinds e1 ≤ 1 := by
  obtain ⟨bt, bp, bv, bb, brf, bdf, drf, ddf, tx⟩ := s
  simp only [Device.bind_draw_target] at h ⊢
  cases hfbo : fboForTarget ddf tx dt with
  | none =>
      simp only [hfbo] at h
      exact Option.noConfusion h
  | some fbo =>
      cases dims with
      | some d =>
          simp only [hfbo] at h
          by_cases hb : bdf ≠ fbo
          · rw [if_pos hb] at h
            injection h with h2
            injection h2 with hA hB
            subst hA
            subst hB
            simp only [hfbo]
            rw [if_neg (not_not_intro rfl)]
            exact ⟨rfl, rfl, Nat.le_refl 1⟩
          · rw [if_neg hb] at h
            injection h with h2
            injection h2 with hA hB
            subst hA
            subst hB
            simp only [hfbo]
            rw [if_neg hb]
            exact ⟨rfl, rfl, Nat.zero_le 1⟩
      | none =>
          simp only [hfbo] at h
          by_cases hb : bdf ≠ fbo
          · rw [if_pos hb] at h
            injection h with h2
            injection h2 with hA hB
            subst hA
            subst hB
            simp only [hfbo]
            rw [if_neg (not_not_intro rfl)]
            exact ⟨rfl, rfl, Nat.le_refl 1⟩
          · rw [if_neg hb] at h
            injection h with h2
            injection h2 with hA hB
            subst hA
            subst hB
            simp only [hfbo]
            rw [if_neg hb]
            exact ⟨rfl, rfl, Nat.zero_le 1⟩

/-- The amended C8, for every binding slot of the device: the second of two
    successive binds of the same handle is a no-op that issues no GL bind
    call (for the draw target, only the unguarded viewport call is
    re-issued); the first bind issues at most one GL bind, and — for the
    directly cached slots — exactly one iff the requested handle differed
    from the cached one. -/
def C8Post (s : DeviceState) (sampler : Nat) (tid : TextureId)
    (pid vid : Nat) (pbo : Option Nat) (rt dt : Option (TextureId × Nat))
    (dims : Option (Nat × Nat)) : Prop :=
  (∀ s1 e1, Device.bind_texture s sampler tid = (s1, e1) →
     Device.bind_texture s1 sampler tid = (s1, []) ∧ countBinds e1 ≤ 1 ∧
     (countBinds e1 = 0 ↔
       s.bound_textures.getD sampler TextureId.invalid = tid)) ∧
  (∀ s1 e1, Device.bind_program s pid = (s1, e1) →
     Device.bind_program s1 pid = (s1, []) ∧ countBinds e1 ≤ 1 ∧
     (countBinds e1 = 0 ↔ s.bound_program = pid)) ∧
  (∀ s1 e1, Device.bind_vao s vid = (s1, e1) →
     Device.bind_vao s1 vid = (s1, []) ∧ countBinds e1 ≤ 1 ∧
     (countBinds e1 = 0 ↔ s.bound_vao = vid)) ∧
  (∀ s1 e1, Device.bind_pbo s pbo = (s1, e1) →
     Device.bind_pbo s1 pbo = (s1, []) ∧ countBinds e1 ≤ 1 ∧
     (countBinds e1 = 0 ↔ s.bound_pbo = pbo.getD 0)) ∧
  (∀ s1 e1, Device.bind_read_target s rt = some (s1, e1) →
     Device.bind_read_target s1 rt = some (s1, []) ∧ countBinds e1 ≤ 1) ∧
  (∀ s1 e1, Device.bind_draw_target s dt dims = some (s1, e1) →
     Device.bind_draw_target s1 dt dims = some (s1, viewportCalls dims) ∧
     countBinds (viewportCalls dims) = 0 ∧ countBinds e1 ≤ 1)

/-- C8 (amended): `bind_x(h); bind_x(h)` issues at most one underlying GL
    bind — exactly one when `h` was not already the cached handle and zero
    when it was; the second call is always a no-op apart from the unguarded
    viewport of `bind_draw_target`. -/
theorem C8_bind_second_noop (s : DeviceState) (sampler : Nat)
    (tid : TextureId) (pid vid : Nat) (pbo : Option Nat)
    (rt dt : Option (TextureId × Nat)) (dims : Option (Nat × Nat))
    (hs : sampler < s.bound_textures.length) :
    C8Post s sampler tid pid vid pbo rt dt dims :=
  ⟨bind_texture_spec s sampler tid hs,
   bind_program_spec s pid,
   bind_vao_spec s vid,
   bind_pbo_spec s pbo,
   fun s1 e1 h => bind_read_target_spec s rt s1 e1 h,
   fun s1 e1 h => bind_draw_target_spec s dt dims s1 e1 h⟩

/-- Witness for C8 (amended): a concrete device state exercising both a
    cached hit (program 7 already bound) and misses. -/
theorem C8_bind_second_noop_witness :
    C8Post ⟨[TextureId.invalid, ⟨9, 3553⟩], 7, 3, 0, 2, 2, 2, 2,
        [(⟨9, 3553⟩, ⟨[11, 12]⟩)]⟩
      1 ⟨9, 3553⟩ 7 4 (some 6) (some (⟨9, 3553⟩, 0)) none (some (640, 480)) :=
  C8_bind_second_noop
    ⟨[TextureId.invalid, ⟨9, 3553⟩], 7, 3, 0, 2, 2, 2, 2,
        [(⟨9, 3553⟩, ⟨[11, 12]⟩)]⟩
    1 ⟨9, 3553⟩ 7 4 (some 6) (some (⟨9, 3553⟩, 0)) none (some (640, 480))
    (by decide)

/-!  ## C10 — texture-cache updates applied outside a frame

renderer.rs `Renderer::update` (lines 1404-1446) applies pending texture
updates immediately on a `ResultMsg::UpdateResources` message, while
`Renderer::render` only does so after `Device::begin_frame`.  Every device
texture operation opens with `debug_assert!(self.inside_frame)`.  The model
keeps the `inside_frame` flag and counts violated asserts; the GL payload
of each texture operation is outside the claim and not modelled. -/

/-- internal_types.rs `TextureUpdateOp`, with payloads reduced to the data
    the `update_texture_cache` dispatch forwards (the external-image create
    path, which also ends in `init_texture` or panics, is elided). -/
inductive TextureUpdateOp where
  | create (width height : Nat) (data : Option (List Int))
  | update (x y width height : Nat) (data : List Int)
  | updateForExternalBuffer (x y width height : Nat) (data : List Int)
  | grow (width height : Nat)
  | free
deriving DecidableEq

/-- device.rs `Device`, restricted to what claim C10 observes: the
    `inside_frame` flag toggled by `begin_frame`/`end_frame`, plus a count
    of `debug_assert!(self.inside_frame)` preconditions found violated
    (each aborts a debug build; release builds compile the assert out and
    issue the GL calls with no frame set up). -/
structure FrameDevice where
  inside_frame : Bool
  assert_failures : Nat
deriving DecidableEq

/-- One `debug_assert!(self.inside_frame)` at the head of a device method. -/
def FrameDevice.assertInsideFrame (self : FrameDevice) : FrameDevice :=
  if self.inside_frame then self else
    { self with assert_failures := self.assert_failures + 1 }

/-- device.rs lines 904-906: `begin_frame` asserts the flag is clear and
    sets it. -/
def FrameDevice.begin_frame (self : FrameDevice) : FrameDevice :=
  if self.inside_frame then
    { self with assert_failures := self.assert_failures + 1 }
  else { self with inside_frame := true }

/-- device.rs `end_frame`: asserts the flag is set, then clears it. -/
def FrameDevice.end_frame (self : FrameDevice) : FrameDevice :=
  { self.assertInsideFrame with inside_frame := false }

/-- device.rs line 1081: `init_texture` opens with the inside-frame assert
    (claim C10 observes only the assert). -/
def FrameDevice.init_texture (self : FrameDevice) : FrameDevice :=
  self.assertInsideFrame

/-- device.rs line 1638: `update_texture` opens with the inside-frame
    assert. -/
def FrameDevice.update_texture (self : FrameDevice) : FrameDevice :=
  self.assertInsideFrame

/-- device.rs line 1313: `deinit_texture` opens with the inside-frame
    assert. -/
def FrameDevice.deinit_texture (self : FrameDevice) : FrameDevice :=
  self.assertInsideFrame

/-- device.rs line 1273: `resize_texture` opens with the inside-frame
    assert; the nested `init_texture`/`deinit_texture`/bind calls it makes
    re-assert the same flag, which this model under-counts as the single
    leading assert. -/
def FrameDevice.resize_texture (self : FrameDevice) : FrameDevice :=
  self.assertInsideFrame

/-- renderer.rs lines 1611-1718: the per-op dispatch of
    `update_texture_cache` — every arm ends in a device texture call
    (`Create` via `init_texture`, `Update`/`UpdateForExternalBuffer` via
    `update_texture`, `Grow` via `resize_texture`, `Free` via
    `deinit_texture`). -/
def applyTextureUpdate (d : FrameDevice) : TextureUpdateOp → FrameDevice
  | TextureUpdateOp.create _ _ _ => d.init_texture
  | TextureUpdateOp.update _ _ _ _ _ => d.update_texture
  | TextureUpdateOp.updateForExternalBuffer _ _ _ _ _ => d.update_texture
  | TextureUpdateOp.grow _ _ => d.resize_texture
  | TextureUpdateOp.free => d.deinit_texture

/-- renderer.rs lines 1607-1721 `Renderer::update_texture_cache`: drains
    `pending_texture_updates` and applies every op of every list. -/
def update_texture_cache (d : FrameDevice)
    (pending : List (List TextureUpdateOp)) : FrameDevice :=
  pending.foldl (fun acc ul => ul.foldl applyTextureUpdate acc) d

/-- internal_types.rs `ResultMsg`, restricted to the payloads
    `Renderer::update` inspects. -/
inductive ResultMsg where
  | newFrame (texture_update_list : List TextureUpdateOp)
  | updateResources (updates : List TextureUpdateOp) (cancel_rendering : Bool)
  | refreshShader
deriving DecidableEq

/-- The slice of renderer.rs `Renderer` read by `Renderer::update`. -/
structure RendererC10 where
  device : FrameDevice
  pending_texture_updates : List (List TextureUpdateOp)
  has_current_frame : Bool
deriving DecidableEq

/-- renderer.rs lines 1409-1444: one message of the `Renderer::update`
    receive loop.  `UpdateResources` pushes its list and calls
    `update_texture_cache` immediately — no `begin_frame` precedes it. -/
def processResultMsg (r : RendererC10) : ResultMsg → RendererC10
  | ResultMsg.newFrame tul =>
      { r with pending_texture_updates := r.pending_texture_updates ++ [tul],
               has_current_frame := true }
  | ResultMsg.updateResources updates cancel =>
      { r with
        pending_texture_updates := [],
        device := update_texture_cache r.device
          (r.pending_texture_updates ++ [updates]),
        has_current_frame := if cancel then false else r.has_current_frame }
  | ResultMsg.refreshShader => r

/-- renderer.rs lines 1404-1446 `Renderer::update`: drains the result
    channel, processing each message in order. -/
def Renderer.update (r : RendererC10) (msgs : List ResultMsg) : RendererC10 :=
  msgs.foldl processResultMsg r

def totalOps (pending : List (List TextureUpdateOp)) : Nat :=
  (pending.map List.length).sum

theorem applyTextureUpdate_outside (d : FrameDevice)
    (hd : d.inside_frame = false) (op : TextureUpdateOp) :
    (applyTextureUpdate d op).inside_frame = false ∧
    (applyTextureUpdate d op).assert_failures = d.assert_failures + 1 := by
  cases op <;>
    simp [applyTextureUpdate, FrameDevice.init_texture,
      FrameDevice.update_texture, FrameDevice.resize_texture,
      FrameDevice.deinit_texture, FrameDevice.assertInsideFrame, hd]

theorem foldl_applyTextureUpdate_outside (ul : List TextureUpdateOp) :
    ∀ d : FrameDevice, d.inside_frame = false →
    (ul.foldl applyTextureUpdate d).inside_frame = false ∧
    (ul.foldl applyTextureUpdate d).assert_failures =
      d.assert_failures + ul.length := by
  induction ul with
  | nil => intro d hd; exact ⟨hd, rfl⟩
  | cons op tl ih =>
      intro d hd
      obtain ⟨h1, h2⟩ := applyTextureUpdate_outside d hd op
      obtain ⟨h3, h4⟩ := ih (applyTextureUpdate d op) h1
      refine ⟨h3, ?_⟩
      simp only [List.foldl_cons, List.length_cons]
      rw [h4, h2]
      omega

theorem update_texture_cache_outside (pending : List (List TextureUpdateOp)) :
    ∀ d : FrameDevice, d.inside_frame = false →
    (update_texture_cache d pending).inside_frame = false ∧
    (update_texture_cache d pending).assert_failures =
      d.assert_failures + totalOps pending := by
  induction pending with
  | nil => intro d hd; exact ⟨hd, rfl⟩
  | cons ul tl ih =>
      intro d hd
      obtain ⟨h1, h2⟩ := foldl_applyTextureUpdate_outside ul d hd
      obtain ⟨h3, h4⟩ := ih (ul.foldl applyTextureUpdate d) h1
      have h5 : totalOps (ul :: tl) = ul.length + totalOps tl := by
        simp [totalOps]
      have h6 : update_texture_cache d (ul :: tl) =
          update_texture_cache (ul.foldl applyTextureUpdate d) tl := rfl
      refine ⟨h6 ▸ h3, ?_⟩
      rw [h6, h4, h2, h5]
      omega

/-- What C10 asserts about one `ResultMsg::UpdateResources` message
    processed by `Renderer::update` while the device is not inside a
    frame: the device stays outside a frame, every pending op (the backlog
    plus the incoming list) trips one inside-frame debug assertion, and the
    backlog is drained. -/
def C10Post (r : RendererC10) (updates : List TextureUpdateOp)
    (cancel : Bool) : Prop :=
  (Renderer.update r
      [ResultMsg.updateResources updates cancel]).device.inside_frame = false ∧
  (Renderer.update r
      [ResultMsg.updateResources updates cancel]).device.assert_failures =
    r.device.assert_failures + totalOps r.pending_texture_updates +
      updates.length ∧
  (updates ≠ [] →
    r.device.assert_failures <
      (Renderer.update r
        [ResultMsg.updateResources updates cancel]).device.assert_failures) ∧
  (Renderer.update r
      [ResultMsg.updateResources updates cancel]).pending_texture_updates = []

/-- C10: `Renderer::update` applies all pending texture-update lists
    immediately inside the `ResultMsg::UpdateResources` arm, outside any
    `begin_frame`/`end_frame` pair; with the device not inside a frame
    every Create/Update/Grow/Free op executes a device texture operation
    whose `debug_assert!(self.inside_frame)` precondition is violated —
    one violation per op, hence at least one as soon as the incoming list
    is non-empty. -/
theorem C10_update_resources_outside_frame (r : RendererC10)
    (updates : List TextureUpdateOp) (cancel : Bool)
    (hout : r.device.inside_frame = false) :
    C10Post r updates cancel := by
  obtain ⟨h1, h2⟩ := update_texture_cache_outside
    (r.pending_texture_updates ++ [updates]) r.device hout
  have htot : totalOps (r.pending_texture_updates ++ [updates]) =
      totalOps r.pending_texture_updates + updates.length := by
    simp [totalOps]
  have hEq : (Renderer.update r
      [ResultMsg.updateResources updates cancel]).device.assert_failures =
      r.device.assert_failures + totalOps r.pending_texture_updates +
        updates.length :=
    h2.trans (by rw [htot, ← Nat.add_assoc])
  refine ⟨h1, hEq, ?_, rfl⟩
  intro hne
  have hlen : 0 < updates.length := List.length_pos.mpr hne
  omega

/-- Witness for C10: a renderer outside a frame with one pending `Free`
    receives an `UpdateResources` carrying a `Create`; both ops trip the
    assert. -/
theorem C10_update_resources_outside_frame_witness :
    C10Post ⟨⟨false, 0⟩, [[TextureUpdateOp.free]], true⟩
      [TextureUpdateOp.create 8 8 none] false :=
  C10_update_resources_outside_frame
    ⟨⟨false, 0⟩, [[TextureUpdateOp.free]], true⟩
    [TextureUpdateOp.create 8 8 none] false rfl

end Gecko